import Mathlib

/-!
Shallow embedding of the DevSharee cascading social-graph mutation engine
(src/backend/src/routes/profile.py, profile_posts.py, routes/social/likes.py,
comments.py, replies.py and src/backend/src/utils/notification_utils.py).

The document store is modelled as explicit lists of documents; ids are Nat,
timestamps are Int (epoch seconds), counters are Int (MongoDB $inc can drive
a counter below zero).  Each route handler becomes a pure function from a
database state (plus the request parameters and the ids/timestamps the real
system draws from ObjectId generation and the clock) to a new state together
with an HTTP-style status code.
-/

namespace DevShare

/-- mongo update_one: apply f to the first element satisfying p, keep the rest. -/
def updateOne (p : α → Bool) (f : α → α) : List α → List α
  | [] => []
  | x :: xs => if p x then f x :: xs else x :: updateOne p f xs

/-- mongo delete_one: remove the first element satisfying p. -/
def deleteOne (p : α → Bool) : List α → List α
  | [] => []
  | x :: xs => if p x then xs else x :: deleteOne p xs

/-- python list(set(..)): keep one occurrence of each id (first occurrence kept;
the source only uses the result for membership tests and length). -/
def dedup : List Nat → List Nat
  | [] => []
  | x :: xs => if x ∈ xs then dedup xs else x :: dedup xs

/-- python dict counting idiom: d[k] = d.get(k, 0) + 1 on an insertion-ordered dict. -/
def bumpCount (k : Nat) : List (Nat × Nat) → List (Nat × Nat)
  | [] => [(k, 1)]
  | (k', c) :: rest => if k' = k then (k', c + 1) :: rest else (k', c) :: bumpCount k rest

/-- Build the insertion-ordered multiplicity table of a list of keys. -/
def countByKey (keys : List Nat) : List (Nat × Nat) :=
  keys.foldl (fun acc k => bumpCount k acc) []

-- ---------------------------------------------------------------------------
-- Data model (§3 of the spec; documents as inserted by the source routes)
-- ---------------------------------------------------------------------------

/-- Embedded file metadata of a post (posts.py upload path). -/
structure FileRef where
  file_id : Nat
  filename : String
  deriving Repr, DecidableEq

/-- posts collection document (posts.py line 97). -/
structure Post where
  id : Nat
  user_id : Nat
  title : String
  description : String
  tech_stack : List String
  github_link : String
  files : List FileRef
  likes_count : Int
  comments_count : Int
  created_at : Int
  updated_at : Option Int
  deriving Repr, DecidableEq

/-- comments collection document (comments.py line 61).  The source document
has no likes_count field at creation; $inc treats a missing field as 0, so the
model carries it as an Int starting at 0. -/
structure Comment where
  id : Nat
  user_id : Nat
  post_id : Nat
  content : String
  replies_count : Int
  likes_count : Int
  created_at : Int
  updated_at : Int
  deriving Repr, DecidableEq

/-- replies collection document (replies.py line 60); post_id is denormalized
from the owning comment.  likes_count as for comments. -/
structure Reply where
  id : Nat
  user_id : Nat
  comment_id : Nat
  post_id : Nat
  content : String
  likes_count : Int
  created_at : Int
  updated_at : Int
  deriving Repr, DecidableEq

/-- likes collection document (likes.py line 79). -/
structure PostLike where
  user_id : Nat
  post_id : Nat
  created_at : Int
  deriving Repr, DecidableEq

/-- comment_likes collection document (comments.py line 310); post_id denormalized. -/
structure CommentLike where
  user_id : Nat
  comment_id : Nat
  post_id : Nat
  created_at : Int
  deriving Repr, DecidableEq

/-- reply_likes collection document (replies.py line 302); comment_id/post_id
denormalized. -/
structure ReplyLike where
  user_id : Nat
  reply_id : Nat
  comment_id : Nat
  post_id : Nat
  created_at : Int
  deriving Repr, DecidableEq

/-- notifications collection document (notification_utils.py line 76).  The
context ids are stored only when the creating call passed them; an absent
field is none. -/
structure Notification where
  id : Nat
  recipient_id : Nat
  actor_id : Nat
  ntype : String
  message : String
  read : Bool
  created_at : Int
  post_id : Option Nat
  comment_id : Option Nat
  reply_id : Option Nat
  deriving Repr, DecidableEq

/-- The six interlinked collections plus users, token blacklist rows (by
user_id) and the GridFS blob store (set of stored file ids). -/
structure DB where
  users : List Nat
  posts : List Post
  comments : List Comment
  replies : List Reply
  likes : List PostLike
  comment_likes : List CommentLike
  reply_likes : List ReplyLike
  notifications : List Notification
  token_blacklist : List Nat
  gridfs : List Nat
  deriving Repr, DecidableEq

-- ---------------------------------------------------------------------------
-- Collaborator helpers (social_utils.py)
-- ---------------------------------------------------------------------------

/-- social_utils.check_post_exists: count_documents({_id}) == 0 means 404. -/
def check_post_exists (s : DB) (post_id : Nat) : Bool :=
  s.posts.countP (fun p => p.id == post_id) != 0

/-- social_utils.check_comment_exists: find_one({_id}). -/
def check_comment_exists (s : DB) (comment_id : Nat) : Option Comment :=
  s.comments.find? (fun c => c.id == comment_id)

/-- social_utils.check_reply_exists: find_one({_id}). -/
def check_reply_exists (s : DB) (reply_id : Nat) : Option Reply :=
  s.replies.find? (fun r => r.id == reply_id)

/-- Does an optional stored context id match a mongo $in query on a set of ids? -/
def optIn (o : Option Nat) (ids : List Nat) : Bool :=
  match o with
  | some v => ids.contains v
  | none => false

/-- python str.strip character class (ASCII whitespace). -/
def isSpaceChar (c : Char) : Bool :=
  c == ' ' || c == '\t' || c == '\n' || c == '\r'

/-- python str.strip(): drop leading and trailing whitespace. -/
def pyStrip (s : String) : String :=
  String.mk (((s.data.dropWhile isSpaceChar).reverse.dropWhile isSpaceChar).reverse)

/-- python len(s) on a str. -/
def pyLen (s : String) : Nat :=
  s.data.length

/-- python s.startswith(pre). -/
def pyStartsWith (s pre : String) : Bool :=
  pre.data.isPrefixOf s.data

/-- python len(s.split(sep)) for a one-character separator: occurrences + 1. -/
def pySplitCount (s : String) (sep : Char) : Nat :=
  s.data.count sep + 1

-- ---------------------------------------------------------------------------
-- Notification fan-out (notification_utils.create_notification, lines 31-97)
-- ---------------------------------------------------------------------------

/-- The duplicate query of create_notification (notification_utils.py lines
54-68): same recipient, actor and type, unread, created within the last hour,
each context id added to the query only when the new notification carries it. -/
def isDupNotif (recipient_id actor_id : Nat) (notif_type : String)
    (post_id comment_id reply_id : Option Nat) (now : Int) (n : Notification) : Bool :=
  n.recipient_id == recipient_id && n.actor_id == actor_id &&
  n.ntype == notif_type && n.read == false &&
  decide (now - 3600 ≤ n.created_at) &&
  (if post_id.isSome then n.post_id == post_id else true) &&
  (if comment_id.isSome then n.comment_id == comment_id else true) &&
  (if reply_id.isSome then n.reply_id == reply_id else true)

/-- notification_utils.create_notification.  Returns the possibly-updated DB
and the inserted id (none on self-notification or duplicate suppression).
notifId stands for the generated ObjectId, now for utcnow(); the source adds
each context id to the duplicate query and the stored document only when the
argument is truthy (here: some). -/
def create_notification (s : DB) (recipient_id actor_id : Nat)
    (notif_type message : String) (post_id comment_id reply_id : Option Nat)
    (notifId : Nat) (now : Int) : DB × Option Nat :=
  if recipient_id = actor_id then (s, none)
  else
    match s.notifications.find?
      (isDupNotif recipient_id actor_id notif_type post_id comment_id reply_id now) with
    | some _ => (s, none)
    | none =>
      let n : Notification :=
        { id := notifId, recipient_id := recipient_id, actor_id := actor_id,
          ntype := notif_type, message := message, read := false,
          created_at := now, post_id := post_id, comment_id := comment_id,
          reply_id := reply_id }
      ({ s with notifications := s.notifications ++ [n] }, some notifId)

-- ---------------------------------------------------------------------------
-- Comment routes (social/comments.py)
-- ---------------------------------------------------------------------------

/-- PostComments.post (comments.py lines 45-99): create a comment on a post.
newId is the generated comment id, notifId the id for the fan-out row. -/
def addComment (s : DB) (user_id post_id : Nat) (content0 : String)
    (newId notifId : Nat) (now : Int) : DB × Nat :=
  let content := pyStrip content0
  if content = "" then (s, 400)
  else if ¬ check_post_exists s post_id then (s, 404)
  else
    let c : Comment :=
      { id := newId, user_id := user_id, post_id := post_id, content := content,
        replies_count := 0, likes_count := 0, created_at := now, updated_at := now }
    let s1 := { s with comments := s.comments ++ [c] }
    let posts2 := updateOne (fun p => p.id == post_id)
      (fun p => { p with comments_count := p.comments_count + 1 }) s1.posts
    let s2 := { s1 with posts := posts2 }
    match s2.posts.find? (fun p => p.id == post_id) with
    | some post =>
        ((create_notification s2 post.user_id user_id "comment"
            "commented on your post" (some post_id) (some newId) none notifId now).1, 201)
    | none => (s2, 201)

/-- CommentModify.put (comments.py lines 159-196): edit an own comment. -/
def editComment (s : DB) (user_id comment_id : Nat) (content0 : String)
    (now : Int) : DB × Nat :=
  let content := pyStrip content0
  if content = "" then (s, 400)
  else
    match check_comment_exists s comment_id with
    | none => (s, 404)
    | some c =>
      if c.user_id ≠ user_id then (s, 403)
      else
        let comments2 := updateOne (fun x => x.id == comment_id)
          (fun x => { x with content := content, updated_at := now }) s.comments
        ({ s with comments := comments2 }, 200)

/-- CommentModify.delete (comments.py lines 204-256): cascade-delete a comment.
The source reads post["user_id"] without a None check; a missing post raises
and the handler answers 500 with no prior mutation. -/
def deleteComment (s : DB) (user_id comment_id : Nat) : DB × Nat :=
  match check_comment_exists s comment_id with
  | none => (s, 404)
  | some c =>
    match s.posts.find? (fun p => p.id == c.post_id) with
    | none => (s, 500)
    | some post =>
      if c.user_id ≠ user_id ∧ post.user_id ≠ user_id then (s, 403)
      else
        let replies := s.replies.filter (fun r => r.comment_id == comment_id)
        let reply_ids := replies.map (fun r => r.id)
        let rlikes1 := s.reply_likes.filter (fun rl => ! reply_ids.contains rl.reply_id)
        let s1 := { s with reply_likes := rlikes1 }
        let clikes2 := s1.comment_likes.filter (fun cl => cl.comment_id != comment_id)
        let s2 := { s1 with comment_likes := clikes2 }
        let notifs3 := s2.notifications.filter (fun n => n.comment_id != some comment_id)
        let s3 := { s2 with notifications := notifs3 }
        let notifs4 := s3.notifications.filter (fun n => ! optIn n.reply_id reply_ids)
        let s4 := { s3 with notifications := notifs4 }
        let replies5 := s4.replies.filter (fun r => r.comment_id != comment_id)
        let s5 := { s4 with replies := replies5 }
        let s6 := { s5 with comments := deleteOne (fun x => x.id == comment_id) s5.comments }
        let posts7 := updateOne (fun p => p.id == c.post_id)
          (fun p => { p with comments_count :=
            p.comments_count - (1 + (replies.length : Int)) }) s6.posts
        let s7 := { s6 with posts := posts7 }
        (s7, 200)

/-- CommentLikes.post (comments.py lines 288-351): toggle a comment like. -/
def commentLikeToggle (s : DB) (user_id comment_id : Nat)
    (notifId1 notifId2 : Nat) (now : Int) : DB × Nat :=
  match check_comment_exists s comment_id with
  | none => (s, 404)
  | some comment =>
    match s.comment_likes.find? (fun l => l.user_id == user_id && l.comment_id == comment_id) with
    | some _ =>
      let clikes1 := deleteOne (fun l => l.user_id == user_id && l.comment_id == comment_id) s.comment_likes
      let s1 := { s with comment_likes := clikes1 }
      let comments2 := updateOne (fun c => c.id == comment_id)
        (fun c => { c with likes_count := c.likes_count - 1 }) s1.comments
      let s2 := { s1 with comments := comments2 }
      (s2, 200)
    | none =>
      let newLike : CommentLike :=
        { user_id := user_id, comment_id := comment_id,
          post_id := comment.post_id, created_at := now }
      let s1 := { s with comment_likes := s.comment_likes ++ [newLike] }
      let comments2 := updateOne (fun c => c.id == comment_id)
        (fun c => { c with likes_count := c.likes_count + 1 }) s1.comments
      let s2 := { s1 with comments := comments2 }
      let s3 := (create_notification s2 comment.user_id user_id "like"
        "liked your comment" (some comment.post_id) (some comment_id) none notifId1 now).1
      match s3.posts.find? (fun p => p.id == comment.post_id) with
      | some post =>
        if post.user_id ≠ comment.user_id then
          ((create_notification s3 post.user_id user_id "like"
            "liked a comment on your post" (some comment.post_id) (some comment_id) none
            notifId2 now).1, 200)
        else (s3, 200)
      | none => (s3, 200)

-- ---------------------------------------------------------------------------
-- Reply routes (social/replies.py)
-- ---------------------------------------------------------------------------

/-- CommentReplies.post (replies.py lines 44-122): create a reply. -/
def addReply (s : DB) (user_id comment_id : Nat) (content0 : String)
    (newId notifId1 notifId2 : Nat) (now : Int) : DB × Nat :=
  let content := pyStrip content0
  if content = "" then (s, 400)
  else
    match check_comment_exists s comment_id with
    | none => (s, 404)
    | some comment =>
      let r : Reply :=
        { id := newId, user_id := user_id, comment_id := comment_id,
          post_id := comment.post_id, content := content, likes_count := 0,
          created_at := now, updated_at := now }
      let s1 := { s with replies := s.replies ++ [r] }
      let comments2 := updateOne (fun c => c.id == comment_id)
        (fun c => { c with replies_count := c.replies_count + 1 }) s1.comments
      let s2 := { s1 with comments := comments2 }
      let posts3 := updateOne (fun p => p.id == comment.post_id)
        (fun p => { p with comments_count := p.comments_count + 1 }) s2.posts
      let s3 := { s2 with posts := posts3 }
      let s4 := (create_notification s3 comment.user_id user_id "reply"
        "replied to your comment" (some comment.post_id) (some comment_id) (some newId)
        notifId1 now).1
      match s4.posts.find? (fun p => p.id == comment.post_id) with
      | some post =>
        if post.user_id ≠ comment.user_id then
          ((create_notification s4 post.user_id user_id "reply"
            "replied to a comment on your post" (some comment.post_id) (some comment_id)
            (some newId) notifId2 now).1, 201)
        else (s4, 201)
      | none => (s4, 201)

/-- ReplyModify.delete (replies.py lines 205-247): cascade-delete a reply.
As for comments, a missing owning post raises in the source before any
mutation, answered as 500. -/
def deleteReply (s : DB) (user_id reply_id : Nat) : DB × Nat :=
  match check_reply_exists s reply_id with
  | none => (s, 404)
  | some reply =>
    match s.posts.find? (fun p => p.id == reply.post_id) with
    | none => (s, 500)
    | some post =>
      if reply.user_id ≠ user_id ∧ post.user_id ≠ user_id then (s, 403)
      else
        let rlikes1 := s.reply_likes.filter (fun rl => rl.reply_id != reply_id)
        let s1 := { s with reply_likes := rlikes1 }
        let notifs2 := s1.notifications.filter (fun n => n.reply_id != some reply_id)
        let s2 := { s1 with notifications := notifs2 }
        let s3 := { s2 with replies := deleteOne (fun r => r.id == reply_id) s2.replies }
        let comments4 := updateOne (fun c => c.id == reply.comment_id)
          (fun c => { c with replies_count := c.replies_count - 1 }) s3.comments
        let s4 := { s3 with comments := comments4 }
        let posts5 := updateOne (fun p => p.id == reply.post_id)
          (fun p => { p with comments_count := p.comments_count - 1 }) s4.posts
        let s5 := { s4 with posts := posts5 }
        (s5, 200)

/-- ReplyLikes.post (replies.py lines 280-346): toggle a reply like. -/
def replyLikeToggle (s : DB) (user_id reply_id : Nat)
    (notifId1 notifId2 : Nat) (now : Int) : DB × Nat :=
  match check_reply_exists s reply_id with
  | none => (s, 404)
  | some reply =>
    match s.reply_likes.find? (fun l => l.user_id == user_id && l.reply_id == reply_id) with
    | some _ =>
      let rlikes1 := deleteOne (fun l => l.user_id == user_id && l.reply_id == reply_id) s.reply_likes
      let s1 := { s with reply_likes := rlikes1 }
      let replies2 := updateOne (fun r => r.id == reply_id)
        (fun r => { r with likes_count := r.likes_count - 1 }) s1.replies
      let s2 := { s1 with replies := replies2 }
      (s2, 200)
    | none =>
      let newLike : ReplyLike :=
        { user_id := user_id, reply_id := reply_id, comment_id := reply.comment_id,
          post_id := reply.post_id, created_at := now }
      let s1 := { s with reply_likes := s.reply_likes ++ [newLike] }
      let replies2 := updateOne (fun r => r.id == reply_id)
        (fun r => { r with likes_count := r.likes_count + 1 }) s1.replies
      let s2 := { s1 with replies := replies2 }
      let s3 := (create_notification s2 reply.user_id user_id "like"
        "liked your reply" (some reply.post_id) (some reply.comment_id) (some reply_id)
        notifId1 now).1
      match s3.posts.find? (fun p => p.id == reply.post_id) with
      | some post =>
        if post.user_id ≠ reply.user_id then
          ((create_notification s3 post.user_id user_id "like"
            "liked a reply on your post" (some reply.post_id) (some reply.comment_id)
            (some reply_id) notifId2 now).1, 200)
        else (s3, 200)
      | none => (s3, 200)

-- ---------------------------------------------------------------------------
-- Post like route (social/likes.py)
-- ---------------------------------------------------------------------------

/-- PostLike.post (likes.py lines 38-118): toggle a post like. -/
def likePostToggle (s : DB) (user_id post_id : Nat) (notifId : Nat)
    (now : Int) : DB × Nat :=
  if ¬ check_post_exists s post_id then (s, 404)
  else
    match s.likes.find? (fun l => l.user_id == user_id && l.post_id == post_id) with
    | some _ =>
      let likes1 := deleteOne (fun l => l.user_id == user_id && l.post_id == post_id) s.likes
      let s1 := { s with likes := likes1 }
      let posts2 := updateOne (fun p => p.id == post_id)
        (fun p => { p with likes_count := p.likes_count - 1 }) s1.posts
      let s2 := { s1 with posts := posts2 }
      (s2, 200)
    | none =>
      let newLike : PostLike := { user_id := user_id, post_id := post_id, created_at := now }
      let s1 := { s with likes := s.likes ++ [newLike] }
      let posts2 := updateOne (fun p => p.id == post_id)
        (fun p => { p with likes_count := p.likes_count + 1 }) s1.posts
      let s2 := { s1 with posts := posts2 }
      match s2.posts.find? (fun p => p.id == post_id) with
      | some post =>
        ((create_notification s2 post.user_id user_id "like" "liked your post"
          (some post_id) none none notifId now).1, 200)
      | none => (s2, 200)

-- ---------------------------------------------------------------------------
-- Post deletion and edit (profile_posts.py UserPostDetail)
-- ---------------------------------------------------------------------------

/-- One collection-level deletion step of the delete_post cascade, recorded in
source order.  The source guards some delete_many calls behind a non-emptiness
test on the id list; a delete_many over an empty id set removes nothing, so
the step is recorded unconditionally with the same resulting state. -/
inductive CascadeStep
  | blobs | postLikes | commentLikes | replyLikes | replies | comments | notifs | post
  deriving Repr, DecidableEq

/-- UserPostDetail.delete (profile_posts.py lines 356-449): cascade-delete an
own post.  Returns the new state, the status code and the ordered trace of
deletion steps actually performed by the source (empty when nothing ran). -/
def deletePost (s : DB) (user_id post_id : Nat) : DB × Nat × List CascadeStep :=
  match s.posts.find? (fun p => p.id == post_id && p.user_id == user_id) with
  | none => (s, 404, [])
  | some post =>
    let file_ids := post.files.map (fun f => f.file_id)
    -- 0. GridFS blobs first (per-file best-effort loop; failures only logged)
    let s0 := { s with gridfs := s.gridfs.filter (fun b => ! file_ids.contains b) }
    -- 1. likes on the post
    let s1 := { s0 with likes := s0.likes.filter (fun l => l.post_id != post_id) }
    -- 2. enumerate the post's comments
    let comment_ids := (s1.comments.filter (fun c => c.post_id == post_id)).map (fun c => c.id)
    -- 3. comment likes on those comments
    let s3 := { s1 with comment_likes := s1.comment_likes.filter (fun cl => ! comment_ids.contains cl.comment_id) }
    -- 4. enumerate replies under those comments
    let reply_ids := (s3.replies.filter (fun r => comment_ids.contains r.comment_id)).map (fun r => r.id)
    -- 5. reply likes on those replies
    let s5 := { s3 with reply_likes := s3.reply_likes.filter (fun rl => ! reply_ids.contains rl.reply_id) }
    -- 6. the replies
    let s6 := { s5 with replies := s5.replies.filter (fun r => ! comment_ids.contains r.comment_id) }
    -- 7. the comments
    let s7 := { s6 with comments := s6.comments.filter (fun c => c.post_id != post_id) }
    -- 8. notifications carrying this post id
    let s8 := { s7 with notifications := s7.notifications.filter (fun n => n.post_id != some post_id) }
    -- 9. the post row itself
    let s9 := { s8 with posts := deleteOne (fun p => p.id == post_id) s8.posts }
    (s9, 200,
      [.blobs, .postLikes, .commentLikes, .replyLikes, .replies, .comments, .notifs, .post])

/-- UserPostDetail.put (profile_posts.py lines 202-354): edit an own post.
existing_files = some keep models the request containing an existing_files
field listing the file ids to keep; new_files models freshly uploaded files
(upload_files_to_gridfs stores their blobs).  The comma-splitting of
tech_stack and the no-op modified_count check (the update always rewrites
updated_at, so that branch compares equal documents only) are left out. -/
def editPost (s : DB) (user_id post_id : Nat) (title0 description0 github_link0 : String)
    (tech_stack : List String) (existing_files : Option (List Nat))
    (new_files : List FileRef) (now : Int) : DB × Nat :=
  match s.posts.find? (fun p => p.id == post_id && p.user_id == user_id) with
  | none => (s, 404)
  | some post =>
    let title := pyStrip title0
    let description := pyStrip description0
    let github_link := pyStrip github_link0
    if title ≠ "" ∧ pyLen title > 200 then (s, 400)
    else if description ≠ "" ∧ pyLen description > 2000 then (s, 400)
    else if tech_stack ≠ [] ∧ tech_stack.any (fun t => pyStrip t == "") then (s, 400)
    else if tech_stack ≠ [] ∧ tech_stack.length > 20 then (s, 400)
    else if github_link ≠ "" ∧ ¬ pyStartsWith github_link "https://github.com/" then (s, 400)
    else if github_link ≠ "" ∧ pySplitCount github_link '/' < 5 then (s, 400)
    else
      let files_to_keep :=
        match existing_files with
        | some keep => post.files.filter (fun f => keep.contains f.file_id)
        | none => post.files
      -- upload_files_to_gridfs stores the new blobs; nothing is ever removed
      -- from GridFS on this path
      let s1 := { s with gridfs := s.gridfs ++ new_files.map (fun f : FileRef => f.file_id) }
      let setFields : Post → Post := fun p =>
        { p with
          title := if title ≠ "" then title else p.title,
          description := if description ≠ "" then description else p.description,
          tech_stack := if tech_stack ≠ [] then tech_stack else p.tech_stack,
          github_link := if github_link ≠ "" then github_link else p.github_link,
          files := if existing_files.isSome ∨ new_files ≠ [] then files_to_keep ++ new_files
                   else p.files,
          updated_at := some now }
      let posts2 := updateOne (fun p => p.id == post_id) setFields s1.posts
      ({ s1 with posts := posts2 }, 200)

-- ---------------------------------------------------------------------------
-- Account deletion (profile.py DeleteAccount.delete, lines 254-517)
-- ---------------------------------------------------------------------------

/-- Fold a counter-correction table (id, times) over a list of documents,
decrementing the selected Int field by the recorded multiplicity — the
source's `for key, count in table.items(): update_one({_id: key}, {$inc: {field: -count}})`. -/
def applyDecs (table : List (Nat × Nat)) (key : α → Nat) (dec : α → Nat → α)
    (docs : List α) : List α :=
  table.foldl (fun acc kc => updateOne (fun x => key x == kc.1) (fun x => dec x kc.2) acc) docs

/-- DeleteAccount.delete: full account cascade.  password_ok abstracts the
bcrypt check of the submitted password against the stored hash.  The source's
dead locals (posts_needing_comment_update at step 3, replies_per_comment at
step 9) are computed but never used and are omitted. -/
def deleteAccount (s : DB) (user_id : Nat) (password_ok : Bool) : DB × Nat :=
  if ¬ s.users.contains user_id then (s, 404)
  else if ¬ password_ok then (s, 400)
  else
    let user_posts : List Post := s.posts.filter (fun p => p.user_id == user_id)
    let post_ids : List Nat := user_posts.map (fun p => p.id)
    let file_ids : List Nat := ((user_posts.map (fun p => p.files)).flatten).map (fun f => f.file_id)
    -- 0. delete all blobs of owned posts from GridFS
    let s0 : DB := { s with gridfs := s.gridfs.filter (fun b => ! file_ids.contains b) }
    -- 1. delete likes on owned posts and zero their likes_count (update_many)
    let likes1 : List PostLike := s0.likes.filter (fun l => ! post_ids.contains l.post_id)
    let posts1 : List Post := s0.posts.map (fun p => if post_ids.contains p.id then { p with likes_count := 0 } else p)
    let s1 : DB := { s0 with likes := likes1, posts := posts1 }
    -- 2. all comments on owned posts
    let comments_on_user_posts : List Comment := s1.comments.filter (fun c => post_ids.contains c.post_id)
    let comment_ids_on_user_posts : List Nat := comments_on_user_posts.map (fun c => c.id)
    -- 3. all comments authored by the user
    let user_comments : List Comment := s1.comments.filter (fun c => c.user_id == user_id)
    let all_comment_ids : List Nat := dedup (comment_ids_on_user_posts ++ user_comments.map (fun c => c.id))
    -- 4. comment likes: delete those on all_comment_ids; decrement likes_count
    --    of every comment the user liked
    let user_comment_likes : List CommentLike := s1.comment_likes.filter (fun l => l.user_id == user_id)
    let comments_needing_like_update : List (Nat × Nat) := countByKey (user_comment_likes.map (fun l => l.comment_id))
    let clikes4 : List CommentLike := s1.comment_likes.filter (fun l => ! all_comment_ids.contains l.comment_id)
    let comments4 : List Comment := applyDecs comments_needing_like_update (fun c => c.id)
      (fun c k => { c with likes_count := c.likes_count - (k : Int) }) s1.comments
    let s4 : DB := { s1 with comment_likes := clikes4, comments := comments4 }
    -- 5. replies under the comments being deleted
    let replies_to_comments : List Reply := s4.replies.filter (fun r => all_comment_ids.contains r.comment_id)
    let reply_ids_to_comments : List Nat := replies_to_comments.map (fun r => r.id)
    -- 6. replies authored by the user, with counter tables
    let user_replies : List Reply := s4.replies.filter (fun r => r.user_id == user_id)
    let comments_needing_reply_update : List (Nat × Nat) := countByKey (user_replies.map (fun r => r.comment_id))
    let posts_needing_reply_update : List (Nat × Nat) := countByKey (user_replies.map (fun r => r.post_id))
    let all_reply_ids : List Nat := dedup (reply_ids_to_comments ++ user_replies.map (fun r => r.id))
    -- 7. reply likes: delete those on all_reply_ids; decrement likes_count of
    --    every reply the user liked
    let user_reply_likes : List ReplyLike := s4.reply_likes.filter (fun l => l.user_id == user_id)
    let replies_needing_like_update : List (Nat × Nat) := countByKey (user_reply_likes.map (fun l => l.reply_id))
    let rlikes7 : List ReplyLike := s4.reply_likes.filter (fun l => ! all_reply_ids.contains l.reply_id)
    let replies7 : List Reply := applyDecs replies_needing_like_update (fun r => r.id)
      (fun r k => { r with likes_count := r.likes_count - (k : Int) }) s4.replies
    let s7 : DB := { s4 with reply_likes := rlikes7, replies := replies7 }
    -- 8. delete the replies; correct replies_count per comment and
    --    comments_count per post for the user's own replies
    let replies8 : List Reply := s7.replies.filter (fun r => ! all_reply_ids.contains r.id)
    let s8 : DB := { s7 with replies := replies8 }
    let comments8 : List Comment := applyDecs comments_needing_reply_update (fun c => c.id)
      (fun c k => { c with replies_count := c.replies_count - (k : Int) }) s8.comments
    let posts8 : List Post := applyDecs posts_needing_reply_update (fun p => p.id)
      (fun p k => { p with comments_count := p.comments_count - (k : Int) }) s8.posts
    let s8b : DB := { s8 with comments := comments8, posts := posts8 }
    -- 9. comments_count corrections for the user's comments (1 each) and for
    --    the replies hanging under the comments being deleted
    let posts_with_replies_to_user_comments : List (Nat × Nat) := countByKey (replies_to_comments.map (fun r => r.post_id))
    let posts9 : List Post := user_comments.foldl (fun acc c =>
      updateOne (fun p => p.id == c.post_id)
        (fun p => { p with comments_count := p.comments_count - 1 }) acc) s8b.posts
    let posts9b : List Post := applyDecs posts_with_replies_to_user_comments (fun p => p.id)
      (fun p k => { p with comments_count := p.comments_count - (k : Int) }) posts9
    let comments10 : List Comment := s8b.comments.filter (fun c => ! all_comment_ids.contains c.id)
    let s10 : DB := { s8b with posts := posts9b, comments := comments10 }
    -- 11. likes the user gave on surviving posts
    let user_likes : List PostLike := s10.likes.filter (fun l => l.user_id == user_id)
    let posts_needing_like_update : List (Nat × Nat) := countByKey (user_likes.map (fun l => l.post_id))
    let likes11 : List PostLike := s10.likes.filter (fun l => l.user_id != user_id)
    let posts11 : List Post := applyDecs posts_needing_like_update (fun p => p.id)
      (fun p k => { p with likes_count := p.likes_count - (k : Int) }) s10.posts
    let s11 : DB := { s10 with likes := likes11, posts := posts11 }
    -- 12. delete the owned posts
    let s12 : DB := { s11 with posts := s11.posts.filter (fun p => ! post_ids.contains p.id) }
    -- 13. blacklisted tokens of the user
    let s13 : DB := { s12 with token_blacklist := s12.token_blacklist.filter (fun t => t != user_id) }
    -- 14. notifications with the user as recipient, then as actor
    let notifs14 : List Notification := s13.notifications.filter (fun n => n.recipient_id != user_id)
    let notifs14b : List Notification := notifs14.filter (fun n => n.actor_id != user_id)
    let s14 : DB := { s13 with notifications := notifs14b }
    -- 15. the user row, and the defensive re-query
    let s15 : DB := { s14 with users := deleteOne (fun u => u == user_id) s14.users }
    if s15.users.contains user_id then (s15, 500) else (s15, 200)

-- ---------------------------------------------------------------------------
-- List-level lemmas about the mongo primitives
-- ---------------------------------------------------------------------------

theorem updateOne_length (p : α → Bool) (f : α → α) (l : List α) :
    (updateOne p f l).length = l.length := by
  induction l with
  | nil => rfl
  | cons x xs ih =>
    by_cases h : p x <;> simp [updateOne, h, ih]

theorem deleteOne_sublist (p : α → Bool) (l : List α) : (deleteOne p l).Sublist l := by
  induction l with
  | nil => simp [deleteOne]
  | cons x xs ih =>
    by_cases h : p x
    · simp only [deleteOne, h, if_true]
      exact List.sublist_cons_self x xs
    · simpa only [deleteOne, h, if_false, Bool.false_eq_true] using ih.cons₂ x

theorem countP_deleteOne_le (p q : α → Bool) (l : List α) :
    (deleteOne p l).countP q ≤ l.countP q :=
  (deleteOne_sublist p l).countP_le q

theorem deleteOne_of_find?_eq_none (p : α → Bool) (l : List α)
    (h : l.find? p = none) : deleteOne p l = l := by
  induction l with
  | nil => rfl
  | cons x xs ih =>
    by_cases hx : p x
    · rw [List.find?_cons_of_pos _ hx] at h
      exact absurd h (by simp)
    · rw [List.find?_cons_of_neg _ hx] at h
      simp [deleteOne, hx, ih h]

theorem deleteOne_append_of_none (p : α → Bool) (l l' : List α)
    (h : l.find? p = none) : deleteOne p (l ++ l') = l ++ deleteOne p l' := by
  induction l with
  | nil => rfl
  | cons x xs ih =>
    by_cases hx : p x
    · rw [List.find?_cons_of_pos _ hx] at h
      exact absurd h (by simp)
    · rw [List.find?_cons_of_neg _ hx] at h
      simp [deleteOne, hx, ih h]

theorem countP_deleteOne_of_find? (p : α → Bool) (l : List α) (a : α)
    (h : l.find? p = some a) : (deleteOne p l).countP p = l.countP p - 1 := by
  induction l with
  | nil => simp at h
  | cons x xs ih =>
    by_cases hx : p x
    · simp [deleteOne, hx, List.countP_cons]
    · rw [List.find?_cons_of_neg _ hx] at h
      simp [deleteOne, hx, List.countP_cons, ih h]

theorem find?_append_of_none (p : α → Bool) (l l' : List α)
    (h : l.find? p = none) : (l ++ l').find? p = l'.find? p := by
  induction l with
  | nil => rfl
  | cons x xs ih =>
    by_cases hx : p x
    · rw [List.find?_cons_of_pos _ hx] at h
      exact absurd h (by simp)
    · rw [List.find?_cons_of_neg _ hx] at h
      rw [List.cons_append, List.find?_cons_of_neg _ hx]
      exact ih h

theorem countP_eq_zero_of_find?_eq_none (p : α → Bool) (l : List α)
    (h : l.find? p = none) : l.countP p = 0 := by
  rw [List.countP_eq_zero]
  intro a ha
  exact List.find?_eq_none.mp h a ha

theorem find?_eq_none_of_countP_eq_zero (p : α → Bool) (l : List α)
    (h : l.countP p = 0) : l.find? p = none := by
  rw [List.find?_eq_none]
  intro a ha
  exact (List.countP_eq_zero.mp h) a ha

theorem updateOne_of_find?_eq_none (p : α → Bool) (f : α → α) (l : List α)
    (h : l.find? p = none) : updateOne p f l = l := by
  induction l with
  | nil => rfl
  | cons x xs ih =>
    by_cases hx : p x
    · rw [List.find?_cons_of_pos _ hx] at h
      exact absurd h (by simp)
    · rw [List.find?_cons_of_neg _ hx] at h
      simp [updateOne, hx, ih h]

theorem updateOne_comp_eq_self (p : α → Bool) (f g : α → α) (l : List α)
    (hfg : ∀ x, p x → p (g x)) (hid : ∀ x, p x → f (g x) = x) :
    updateOne p f (updateOne p g l) = l := by
  induction l with
  | nil => rfl
  | cons x xs ih =>
    by_cases hx : p x
    · simp [updateOne, hx, hfg x hx, hid x hx]
    · simp [updateOne, hx, ih]

theorem countP_updateOne (p q : α → Bool) (f : α → α) (l : List α)
    (h : ∀ x, q (f x) = q x) : (updateOne p f l).countP q = l.countP q := by
  induction l with
  | nil => rfl
  | cons x xs ih =>
    by_cases hx : p x
    · simp [updateOne, hx, List.countP_cons, h]
    · simp [updateOne, hx, List.countP_cons, ih]

theorem find?_updateOne (p : α → Bool) (f : α → α) (l : List α) (a : α)
    (hp : ∀ x, p x → p (f x)) (h : l.find? p = some a) :
    (updateOne p f l).find? p = some (f a) := by
  induction l with
  | nil => simp at h
  | cons x xs ih =>
    by_cases hx : p x
    · rw [List.find?_cons_of_pos _ hx] at h
      have hax : a = x := by simpa using h.symm
      subst hax
      simp [updateOne, hx, List.find?_cons_of_pos _ (hp a hx)]
    · rw [List.find?_cons_of_neg _ hx] at h
      simp [updateOne, hx, List.find?_cons_of_neg _ hx, ih h]

theorem find?_updateOne_of_ne (p q : α → Bool) (f : α → α) (l : List α)
    (hpq : ∀ x, q x → ¬ p x) (hf : ∀ x, q (f x) = q x) :
    (updateOne p f l).find? q = l.find? q := by
  induction l with
  | nil => rfl
  | cons x xs ih =>
    by_cases hx : p x
    · have hqx : q x = false := by
        by_cases hq : q x
        · exact absurd hx (hpq x hq)
        · simpa using hq
      have hqfx : q (f x) = false := by rw [hf]; exact hqx
      simp [updateOne, hx, List.find?_cons, hqx, hqfx]
    · by_cases hq : q x
      · simp [updateOne, hx, List.find?_cons, hq]
      · have hqx : q x = false := by simpa using hq
        simp [updateOne, hx, List.find?_cons, hqx, ih]

theorem mem_updateOne_of_not_p (p : α → Bool) (f : α → α) (l : List α) (x : α)
    (hx : x ∈ l) (hpx : ¬ p x) : x ∈ updateOne p f l := by
  induction l with
  | nil => simp at hx
  | cons y ys ih =>
    by_cases hy : p y
    · simp [updateOne, hy]
      rcases List.mem_cons.mp hx with rfl | h
      · exact absurd hy hpx
      · exact Or.inr h
    · simp [updateOne, hy]
      rcases List.mem_cons.mp hx with rfl | h
      · exact Or.inl rfl
      · exact Or.inr (ih h)

theorem countP_pos_of_find? (p : α → Bool) (l : List α) (a : α)
    (h : l.find? p = some a) : 0 < l.countP p :=
  List.countP_pos_iff.mpr ⟨a, List.mem_of_find?_eq_some h, List.find?_some h⟩

theorem mem_of_mem_updateOne_of_not_p (p : α → Bool) (f : α → α) (l : List α) (x : α)
    (hx : x ∈ updateOne p f l) (hpres : ∀ y, p y → p (f y)) (hpx : ¬ p x) : x ∈ l := by
  induction l with
  | nil => simp [updateOne] at hx
  | cons y ys ih =>
    by_cases hy : p y
    · simp [updateOne, hy] at hx
      rcases hx with rfl | h
      · exact absurd (hpres y hy) hpx
      · exact List.mem_cons_of_mem y h
    · simp [updateOne, hy] at hx
      rcases hx with rfl | h
      · exact List.mem_cons_self x ys
      · exact List.mem_cons_of_mem y (ih h)

-- ---------------------------------------------------------------------------
-- Frame lemmas: create_notification touches only the notifications collection
-- ---------------------------------------------------------------------------

theorem create_notification_posts (s : DB) (r a : Nat) (t m : String)
    (pid cid rid : Option Nat) (nid : Nat) (now : Int) :
    (create_notification s r a t m pid cid rid nid now).1.posts = s.posts := by
  unfold create_notification
  split
  · rfl
  · split <;> rfl

theorem create_notification_comments (s : DB) (r a : Nat) (t m : String)
    (pid cid rid : Option Nat) (nid : Nat) (now : Int) :
    (create_notification s r a t m pid cid rid nid now).1.comments = s.comments := by
  unfold create_notification
  split
  · rfl
  · split <;> rfl

theorem create_notification_replies (s : DB) (r a : Nat) (t m : String)
    (pid cid rid : Option Nat) (nid : Nat) (now : Int) :
    (create_notification s r a t m pid cid rid nid now).1.replies = s.replies := by
  unfold create_notification
  split
  · rfl
  · split <;> rfl

theorem create_notification_likes (s : DB) (r a : Nat) (t m : String)
    (pid cid rid : Option Nat) (nid : Nat) (now : Int) :
    (create_notification s r a t m pid cid rid nid now).1.likes = s.likes := by
  unfold create_notification
  split
  · rfl
  · split <;> rfl

theorem create_notification_comment_likes (s : DB) (r a : Nat) (t m : String)
    (pid cid rid : Option Nat) (nid : Nat) (now : Int) :
    (create_notification s r a t m pid cid rid nid now).1.comment_likes = s.comment_likes := by
  unfold create_notification
  split
  · rfl
  · split <;> rfl

theorem create_notification_reply_likes (s : DB) (r a : Nat) (t m : String)
    (pid cid rid : Option Nat) (nid : Nat) (now : Int) :
    (create_notification s r a t m pid cid rid nid now).1.reply_likes = s.reply_likes := by
  unfold create_notification
  split
  · rfl
  · split <;> rfl

theorem create_notification_users (s : DB) (r a : Nat) (t m : String)
    (pid cid rid : Option Nat) (nid : Nat) (now : Int) :
    (create_notification s r a t m pid cid rid nid now).1.users = s.users := by
  unfold create_notification
  split
  · rfl
  · split <;> rfl

theorem create_notification_gridfs (s : DB) (r a : Nat) (t m : String)
    (pid cid rid : Option Nat) (nid : Nat) (now : Int) :
    (create_notification s r a t m pid cid rid nid now).1.gridfs = s.gridfs := by
  unfold create_notification
  split
  · rfl
  · split <;> rfl

/-- Every notification appended by create_notification carries exactly the
requested context ids; existing rows are never modified. -/
theorem create_notification_notifs_cases (s : DB) (r a : Nat) (t m : String)
    (pid cid rid : Option Nat) (nid : Nat) (now : Int) :
    (create_notification s r a t m pid cid rid nid now).1.notifications = s.notifications ∨
    (create_notification s r a t m pid cid rid nid now).1.notifications =
      s.notifications ++ [{ id := nid, recipient_id := r, actor_id := a, ntype := t,
                            message := m, read := false, created_at := now, post_id := pid,
                            comment_id := cid, reply_id := rid }] := by
  unfold create_notification
  split
  · exact Or.inl rfl
  · split
    · exact Or.inl rfl
    · exact Or.inr rfl

-- ---------------------------------------------------------------------------
-- Claim C7
-- ---------------------------------------------------------------------------

/-- The duplicate-suppression query, as a proposition over the state: an
unread notification of the same recipient, actor and type created within the
last 3600 seconds, agreeing on every context id the new notification carries. -/
def dupExists (s : DB) (r a : Nat) (t : String)
    (pid cid rid : Option Nat) (now : Int) : Prop :=
  ∃ n ∈ s.notifications, n.recipient_id = r ∧ n.actor_id = a ∧ n.ntype = t ∧
    n.read = false ∧ now - 3600 ≤ n.created_at ∧
    (pid.isSome → n.post_id = pid) ∧
    (cid.isSome → n.comment_id = cid) ∧
    (rid.isSome → n.reply_id = rid)

instance (s : DB) (r a : Nat) (t : String) (pid cid rid : Option Nat) (now : Int) :
    Decidable (dupExists s r a t pid cid rid now) := by
  unfold dupExists
  infer_instance

theorem isDupNotif_iff (r a : Nat) (t : String) (pid cid rid : Option Nat)
    (now : Int) (n : Notification) :
    isDupNotif r a t pid cid rid now n = true ↔
      (n.recipient_id = r ∧ n.actor_id = a ∧ n.ntype = t ∧ n.read = false ∧
       now - 3600 ≤ n.created_at ∧
       (pid.isSome → n.post_id = pid) ∧
       (cid.isSome → n.comment_id = cid) ∧
       (rid.isSome → n.reply_id = rid)) := by
  unfold isDupNotif
  cases pid <;> cases cid <;> cases rid <;>
    simp [Bool.and_assoc, and_assoc]

theorem find?_isDup_eq_none_iff (s : DB) (r a : Nat) (t : String)
    (pid cid rid : Option Nat) (now : Int) :
    s.notifications.find? (isDupNotif r a t pid cid rid now) = none ↔
      ¬ dupExists s r a t pid cid rid now := by
  rw [List.find?_eq_none]
  unfold dupExists
  constructor
  · rintro h ⟨n, hn, hprops⟩
    exact (h n hn) ((isDupNotif_iff r a t pid cid rid now n).mpr hprops)
  · intro h n hn habs
    exact h ⟨n, hn, (isDupNotif_iff r a t pid cid rid now n).mp habs⟩

/-- C7: create_notification inserts nothing and returns none on
self-notification (recipient = actor) and when an unread notification with the
same recipient, actor and type, agreeing on each context id the new
notification would set, already exists and is at most 3600 seconds old;
otherwise it appends exactly one unread notification carrying the given
context ids and returns its id, touching no other collection. -/
theorem notification_dedup_spec (s : DB) (r a : Nat) (t m : String)
    (pid cid rid : Option Nat) (nid : Nat) (now : Int) :
    (r = a → create_notification s r a t m pid cid rid nid now = (s, none)) ∧
    (r ≠ a → dupExists s r a t pid cid rid now →
      create_notification s r a t m pid cid rid nid now = (s, none)) ∧
    (r ≠ a → ¬ dupExists s r a t pid cid rid now →
      (create_notification s r a t m pid cid rid nid now).1.notifications =
        s.notifications ++ [{ id := nid, recipient_id := r, actor_id := a, ntype := t,
                              message := m, read := false, created_at := now, post_id := pid,
                              comment_id := cid, reply_id := rid }] ∧
      (create_notification s r a t m pid cid rid nid now).2 = some nid ∧
      (create_notification s r a t m pid cid rid nid now).1.posts = s.posts ∧
      (create_notification s r a t m pid cid rid nid now).1.comments = s.comments ∧
      (create_notification s r a t m pid cid rid nid now).1.replies = s.replies ∧
      (create_notification s r a t m pid cid rid nid now).1.likes = s.likes ∧
      (create_notification s r a t m pid cid rid nid now).1.comment_likes = s.comment_likes ∧
      (create_notification s r a t m pid cid rid nid now).1.reply_likes = s.reply_likes) := by
  refine ⟨fun h => by simp [create_notification, h], fun h hdup => ?_, fun h hdup => ?_⟩
  · have hne : s.notifications.find? (isDupNotif r a t pid cid rid now) ≠ none := fun hnone =>
      ((find?_isDup_eq_none_iff s r a t pid cid rid now).mp hnone) hdup
    rcases Option.ne_none_iff_exists'.mp hne with ⟨x, hx⟩
    simp [create_notification, h, hx]
  · have hnone : s.notifications.find? (isDupNotif r a t pid cid rid now) = none :=
      (find?_isDup_eq_none_iff s r a t pid cid rid now).mpr hdup
    refine ⟨?_, ?_, ?_, ?_, ?_, ?_, ?_, ?_⟩ <;>
      simp [create_notification, h, hnone]

/-- A concrete state for the C7 witness: one already-read notification from
actor 2 to recipient 1 about post 10. -/
def c7State : DB where
  users := [1, 2]
  posts := []
  comments := []
  replies := []
  likes := []
  comment_likes := []
  reply_likes := []
  notifications := [{ id := 5, recipient_id := 1, actor_id := 2, ntype := "like",
                      message := "liked your post", read := true, created_at := 50,
                      post_id := some 10, comment_id := none, reply_id := none }]
  token_blacklist := []
  gridfs := []

/-- Witness for C7 at a concrete state: actor 2 notifies recipient 1 about
post 10; the state holds only a read notification (not a duplicate since the
query demands unread), so one row is inserted. -/
theorem notification_dedup_spec_witness :
    (1 : Nat) ≠ 2 ∧
    ¬ dupExists c7State 1 2 "like" (some 10) none none 60 ∧
    (create_notification c7State 1 2 "like" "liked your post"
      (some 10) none none 6 60).2 = some 6 := by
  refine ⟨by decide, by decide, ?_⟩
  exact ((notification_dedup_spec c7State 1 2 "like" "liked your post"
    (some 10) none none 6 60).2.2 (by decide) (by decide)).2.1

-- ---------------------------------------------------------------------------
-- Claim C10
-- ---------------------------------------------------------------------------

/-- C10: a successful comment edit (PUT by the author with non-empty content)
rewrites only the comment's content and updated_at: the edited row keeps its
user_id, post_id, replies_count, likes_count and created_at (it equals the old
row with just those two fields replaced), every other comment row is
untouched, and every other collection is left exactly as it was. -/
theorem comment_edit_frame (s : DB) (uid cid : Nat) (content0 : String) (now : Int)
    (c : Comment)
    (hne : ¬ pyStrip content0 = "")
    (hfind : check_comment_exists s cid = some c)
    (hown : c.user_id = uid) :
    (editComment s uid cid content0 now).2 = 200 ∧
    (editComment s uid cid content0 now).1.posts = s.posts ∧
    (editComment s uid cid content0 now).1.replies = s.replies ∧
    (editComment s uid cid content0 now).1.likes = s.likes ∧
    (editComment s uid cid content0 now).1.comment_likes = s.comment_likes ∧
    (editComment s uid cid content0 now).1.reply_likes = s.reply_likes ∧
    (editComment s uid cid content0 now).1.notifications = s.notifications ∧
    (editComment s uid cid content0 now).1.users = s.users ∧
    (editComment s uid cid content0 now).1.gridfs = s.gridfs ∧
    (editComment s uid cid content0 now).1.comments.find? (fun x => x.id == cid) =
      some { c with content := pyStrip content0, updated_at := now } ∧
    (∀ x ∈ s.comments, x.id ≠ cid → x ∈ (editComment s uid cid content0 now).1.comments) ∧
    (∀ x ∈ (editComment s uid cid content0 now).1.comments, x.id ≠ cid → x ∈ s.comments) ∧
    (editComment s uid cid content0 now).1.comments.length = s.comments.length := by
  have hnotown : ¬ c.user_id ≠ uid := by simp [hown]
  have heq : editComment s uid cid content0 now =
      ({ s with comments := updateOne (fun x => x.id == cid)
                              (fun x => { x with content := pyStrip content0, updated_at := now })
                              s.comments }, 200) := by
    unfold editComment
    rw [if_neg hne, hfind]
    simp only [if_neg hnotown]
  rw [heq]
  have hfind' : s.comments.find? (fun x => x.id == cid) = some c := hfind
  refine ⟨rfl, rfl, rfl, rfl, rfl, rfl, rfl, rfl, rfl, ?_, ?_, ?_, ?_⟩
  · exact find?_updateOne _ _ _ c (fun x hx => by simpa using hx) hfind'
  · intro x hx hne'
    exact mem_updateOne_of_not_p _ _ _ x hx (by simpa using hne')
  · intro x hx hne'
    exact mem_of_mem_updateOne_of_not_p _ _ _ x hx
      (fun y hy => by simpa using hy) (by simpa using hne')
  · exact updateOne_length _ _ _

/-- A concrete state for the C10 witness: one comment by user 1 on post 10. -/
def c10State : DB where
  users := [1]
  posts := []
  comments := [{ id := 20, user_id := 1, post_id := 10, content := "old",
                 replies_count := 0, likes_count := 0, created_at := 0, updated_at := 0 }]
  replies := []
  likes := []
  comment_likes := []
  reply_likes := []
  notifications := []
  token_blacklist := []
  gridfs := []

/-- Witness for C10: author 1 edits comment 20 on post 10. -/
theorem comment_edit_frame_witness :
    ¬ (pyStrip "new text" = "") ∧
    check_comment_exists c10State 20 =
      some { id := 20, user_id := 1, post_id := 10, content := "old",
             replies_count := 0, likes_count := 0, created_at := 0, updated_at := 0 } ∧
    (editComment c10State 1 20 "new text" 7).1.comments.find? (fun x => x.id == 20) =
      some { id := 20, user_id := 1, post_id := 10, content := "new text",
             replies_count := 0, likes_count := 0, created_at := 0, updated_at := 7 } := by
  refine ⟨by decide, by decide, ?_⟩
  exact (comment_edit_frame c10State 1 20 "new text" 7
    { id := 20, user_id := 1, post_id := 10, content := "old",
      replies_count := 0, likes_count := 0, created_at := 0, updated_at := 0 }
    (by decide) (by decide) (by decide)).2.2.2.2.2.2.2.2.2.1

-- ---------------------------------------------------------------------------
-- Claim C9
-- ---------------------------------------------------------------------------

/-- C9: every mutating operation detects a validation failure (empty content
after stripping) or a missing referenced root before any write: comment
create, reply create, the three like toggles, delete_post, delete_comment and
delete_reply all return the state unchanged on those paths — every
collection, every counter and the blob store are exactly as before. -/
theorem mutations_abort_cleanly (s : DB) :
    (∀ uid pid content newId notifId now,
      (pyStrip content = "" ∨ ¬ check_post_exists s pid) →
      (addComment s uid pid content newId notifId now).1 = s) ∧
    (∀ uid cid content newId notifId1 notifId2 now,
      (pyStrip content = "" ∨ check_comment_exists s cid = none) →
      (addReply s uid cid content newId notifId1 notifId2 now).1 = s) ∧
    (∀ uid pid notifId now, ¬ check_post_exists s pid →
      (likePostToggle s uid pid notifId now).1 = s) ∧
    (∀ uid cid notifId1 notifId2 now, check_comment_exists s cid = none →
      (commentLikeToggle s uid cid notifId1 notifId2 now).1 = s) ∧
    (∀ uid rid notifId1 notifId2 now, check_reply_exists s rid = none →
      (replyLikeToggle s uid rid notifId1 notifId2 now).1 = s) ∧
    (∀ uid pid, s.posts.find? (fun p => p.id == pid && p.user_id == uid) = none →
      (deletePost s uid pid).1 = s) ∧
    (∀ uid cid, check_comment_exists s cid = none →
      (deleteComment s uid cid).1 = s) ∧
    (∀ uid rid, check_reply_exists s rid = none →
      (deleteReply s uid rid).1 = s) := by
  refine ⟨?_, ?_, ?_, ?_, ?_, ?_, ?_, ?_⟩
  · intro uid pid content newId notifId now h
    rcases h with h | h
    · simp [addComment, h]
    · by_cases hc : pyStrip content = ""
      · simp [addComment, hc]
      · simp only [addComment]
        rw [if_neg hc, if_pos h]
  · intro uid cid content newId notifId1 notifId2 now h
    rcases h with h | h
    · simp [addReply, h]
    · by_cases hc : pyStrip content = ""
      · simp [addReply, hc]
      · simp only [addReply]
        rw [if_neg hc, h]
  · intro uid pid notifId now h
    simp [likePostToggle, h]
  · intro uid cid notifId1 notifId2 now h
    simp [commentLikeToggle, h]
  · intro uid rid notifId1 notifId2 now h
    simp [replyLikeToggle, h]
  · intro uid pid h
    simp [deletePost, h]
  · intro uid cid h
    simp [deleteComment, h]
  · intro uid rid h
    simp [deleteReply, h]

/-- Witness for C9 at a concrete empty state: comment creation with empty
content and a like toggle on a missing post both leave the state untouched. -/
theorem mutations_abort_cleanly_witness :
    (pyStrip " " = "" ∨ ¬ check_post_exists
      { users := [1], posts := [], comments := [], replies := [], likes := [],
        comment_likes := [], reply_likes := [], notifications := [],
        token_blacklist := [], gridfs := [] } 10) ∧
    (addComment
      { users := [1], posts := [], comments := [], replies := [], likes := [],
        comment_likes := [], reply_likes := [], notifications := [],
        token_blacklist := [], gridfs := [] } 1 10 " " 2 3 4).1 =
      { users := [1], posts := [], comments := [], replies := [], likes := [],
        comment_likes := [], reply_likes := [], notifications := [],
        token_blacklist := [], gridfs := [] } ∧
    ¬ check_post_exists
      { users := [1], posts := [], comments := [], replies := [], likes := [],
        comment_likes := [], reply_likes := [], notifications := [],
        token_blacklist := [], gridfs := [] } 10 ∧
    (likePostToggle
      { users := [1], posts := [], comments := [], replies := [], likes := [],
        comment_likes := [], reply_likes := [], notifications := [],
        token_blacklist := [], gridfs := [] } 1 10 2 4).1 =
      { users := [1], posts := [], comments := [], replies := [], likes := [],
        comment_likes := [], reply_likes := [], notifications := [],
        token_blacklist := [], gridfs := [] } := by
  refine ⟨Or.inl (by decide), ?_, by decide, ?_⟩
  · exact (mutations_abort_cleanly _).1 1 10 " " 2 3 4 (Or.inl (by decide))
  · exact (mutations_abort_cleanly _).2.2.1 1 10 2 4 (by decide)

-- ---------------------------------------------------------------------------
-- Claim C1
-- ---------------------------------------------------------------------------

/-- The failing input for C1: user 1 authored comment 20 on user 2's post 10
and also authored reply 30 under that same comment, so post 10 carries
comments_count = 2 (the comment plus the reply — comments_count counts both). -/
def c1State : DB where
  users := [1, 2]
  posts := [{ id := 10, user_id := 2, title := "t", description := "d", tech_stack := [],
              github_link := "", files := [], likes_count := 0, comments_count := 2,
              created_at := 0, updated_at := none }]
  comments := [{ id := 20, user_id := 1, post_id := 10, content := "c",
                 replies_count := 1, likes_count := 0, created_at := 0, updated_at := 0 }]
  replies := [{ id := 30, user_id := 1, comment_id := 20, post_id := 10, content := "r",
                likes_count := 0, created_at := 0, updated_at := 0 }]
  likes := []
  comment_likes := []
  reply_likes := []
  notifications := []
  token_blacklist := []
  gridfs := []

/-- C1 (code bug): delete_account decrements the surviving foreign post's
comments_count three times for this input — once for the user's comment, once
for the user's reply in the user-replies pass (step 8), and once more for the
same reply in the replies-to-deleted-comments pass (step 9) — although one
comment plus one reply are removed.  Post 10 ends at comments_count = -1 while
the live count of its comments and replies is 0, so the claim's
"never decremented more than once on account of the same reply" fails on the
code (and the spec's global counter invariant is violated). -/
theorem account_delete_double_decrements_reply :
    (deleteAccount c1State 1 true).2 = 200 ∧
    (deleteAccount c1State 1 true).1.comments = [] ∧
    (deleteAccount c1State 1 true).1.replies = [] ∧
    ((deleteAccount c1State 1 true).1.posts.find? (fun p => p.id == 10)).map
      Post.comments_count = some (-1) := by
  decide

-- ---------------------------------------------------------------------------
-- Claims C2 and C3: a concrete post tree
-- ---------------------------------------------------------------------------

/-- The ids of the comments sitting on a post (delete_post step 2). -/
def postCommentIds (s : DB) (pid : Nat) : List Nat :=
  (s.comments.filter (fun c => c.post_id == pid)).map (fun c => c.id)

/-- The ids of the replies under those comments (delete_post step 4). -/
def postReplyIds (s : DB) (pid : Nat) : List Nat :=
  (s.replies.filter (fun r => (postCommentIds s pid).contains r.comment_id)).map (fun r => r.id)

/-- Post 10 of the concrete tree below: one file, one like, two comments with
two replies each (comments_count = 6 counts comments plus replies). -/
def treePost : Post :=
  { id := 10, user_id := 1, title := "t", description := "d", tech_stack := [],
    github_link := "", files := [{ file_id := 100, filename := "a.txt" }],
    likes_count := 1, comments_count := 6, created_at := 0, updated_at := none }

/-- The spec §8 test-property-4 scenario: a post with 2 comments, each with 2
replies, likes on the post, on each comment and on each reply, plus
notifications carrying the tree's ids. -/
def treeState : DB where
  users := [1, 2]
  posts := [treePost]
  comments := [{ id := 21, user_id := 2, post_id := 10, content := "c1",
                 replies_count := 2, likes_count := 1, created_at := 0, updated_at := 0 },
               { id := 22, user_id := 2, post_id := 10, content := "c2",
                 replies_count := 2, likes_count := 1, created_at := 0, updated_at := 0 }]
  replies := [{ id := 31, user_id := 2, comment_id := 21, post_id := 10, content := "r1",
                likes_count := 1, created_at := 0, updated_at := 0 },
              { id := 32, user_id := 2, comment_id := 21, post_id := 10, content := "r2",
                likes_count := 1, created_at := 0, updated_at := 0 },
              { id := 33, user_id := 2, comment_id := 22, post_id := 10, content := "r3",
                likes_count := 1, created_at := 0, updated_at := 0 },
              { id := 34, user_id := 2, comment_id := 22, post_id := 10, content := "r4",
                likes_count := 1, created_at := 0, updated_at := 0 }]
  likes := [{ user_id := 2, post_id := 10, created_at := 0 }]
  comment_likes := [{ user_id := 1, comment_id := 21, post_id := 10, created_at := 0 },
                    { user_id := 1, comment_id := 22, post_id := 10, created_at := 0 }]
  reply_likes := [{ user_id := 1, reply_id := 31, comment_id := 21, post_id := 10, created_at := 0 },
                  { user_id := 1, reply_id := 32, comment_id := 21, post_id := 10, created_at := 0 },
                  { user_id := 1, reply_id := 33, comment_id := 22, post_id := 10, created_at := 0 },
                  { user_id := 1, reply_id := 34, comment_id := 22, post_id := 10, created_at := 0 }]
  notifications := [{ id := 90, recipient_id := 1, actor_id := 2, ntype := "comment",
                      message := "commented on your post", read := false, created_at := 0,
                      post_id := some 10, comment_id := some 21, reply_id := none },
                    { id := 91, recipient_id := 1, actor_id := 2, ntype := "reply",
                      message := "replied to a comment on your post", read := false,
                      created_at := 0, post_id := some 10, comment_id := some 21,
                      reply_id := some 31 },
                    { id := 92, recipient_id := 1, actor_id := 2, ntype := "like",
                      message := "liked your post", read := false, created_at := 0,
                      post_id := some 10, comment_id := none, reply_id := none }]
  token_blacklist := []
  gridfs := [100]

/-- C3 counterexample: on the concrete tree the trace of delete_post is not
the §4.1 order claimed by the spec (ReplyLikes, CommentLikes, Replies,
Comments, PostLikes, Notifications, blobs, Post). -/
theorem delete_post_order_counterexample :
    (deletePost treeState 1 10).2.2 ≠
      [CascadeStep.replyLikes, CascadeStep.commentLikes, CascadeStep.replies,
       CascadeStep.comments, CascadeStep.postLikes, CascadeStep.notifs,
       CascadeStep.blobs, CascadeStep.post] := by
  decide

/-- C3 as amended: whenever delete_post finds the owned post, it performs its
deletions in the order blobs, PostLikes, CommentLikes, ReplyLikes, Replies,
Comments, Notifications, Post — so every like row is still deleted before its
target row, but blob deletion comes first, not after the interaction rows, and
PostLikes precede CommentLikes and ReplyLikes. -/
theorem delete_post_order (s : DB) (uid pid : Nat) (post : Post)
    (h : s.posts.find? (fun p => p.id == pid && p.user_id == uid) = some post) :
    (deletePost s uid pid).2.2 =
      [CascadeStep.blobs, CascadeStep.postLikes, CascadeStep.commentLikes,
       CascadeStep.replyLikes, CascadeStep.replies, CascadeStep.comments,
       CascadeStep.notifs, CascadeStep.post] := by
  simp [deletePost, h]

/-- Witness for the amended C3 on the concrete tree. -/
theorem delete_post_order_witness :
    treeState.posts.find? (fun p => p.id == 10 && p.user_id == 1) = some treePost ∧
    (deletePost treeState 1 10).2.2 =
      [CascadeStep.blobs, CascadeStep.postLikes, CascadeStep.commentLikes,
       CascadeStep.replyLikes, CascadeStep.replies, CascadeStep.comments,
       CascadeStep.notifs, CascadeStep.post] :=
  ⟨by decide, delete_post_order treeState 1 10 treePost (by decide)⟩

/-- C2: after a successful delete_post by the owner, no comment, reply,
post-like, comment-like, reply-like or notification row referencing the
deleted post, any of its comments or any of its replies remains, provided
the state's denormalized references are consistent (each such row that
references the tree through any of its id fields belongs to the tree through
the id the cascade queries on — true of every API-reachable state). -/
theorem delete_post_cascade_complete (s : DB) (uid pid : Nat) (post : Post)
    (hfind : s.posts.find? (fun p => p.id == pid && p.user_id == uid) = some post)
    (hpostuniq : s.posts.countP (fun p => p.id == pid) = 1)
    (hreply : ∀ r ∈ s.replies, r.post_id = pid →
      (postCommentIds s pid).contains r.comment_id)
    (hclike : ∀ cl ∈ s.comment_likes, cl.post_id = pid →
      (postCommentIds s pid).contains cl.comment_id)
    (hrlike1 : ∀ rl ∈ s.reply_likes, rl.post_id = pid →
      (postReplyIds s pid).contains rl.reply_id)
    (hrlike2 : ∀ rl ∈ s.reply_likes, (postCommentIds s pid).contains rl.comment_id →
      (postReplyIds s pid).contains rl.reply_id)
    (hnotifc : ∀ n ∈ s.notifications, ∀ cid ∈ postCommentIds s pid,
      n.comment_id = some cid → n.post_id = some pid)
    (hnotifr : ∀ n ∈ s.notifications, ∀ rid ∈ postReplyIds s pid,
      n.reply_id = some rid → n.post_id = some pid) :
    (∀ q ∈ (deletePost s uid pid).1.posts, q.id ≠ pid) ∧
    (∀ c ∈ (deletePost s uid pid).1.comments, c.post_id ≠ pid) ∧
    (∀ r ∈ (deletePost s uid pid).1.replies, r.post_id ≠ pid ∧
      ¬ (postCommentIds s pid).contains r.comment_id) ∧
    (∀ l ∈ (deletePost s uid pid).1.likes, l.post_id ≠ pid) ∧
    (∀ cl ∈ (deletePost s uid pid).1.comment_likes, cl.post_id ≠ pid ∧
      ¬ (postCommentIds s pid).contains cl.comment_id) ∧
    (∀ rl ∈ (deletePost s uid pid).1.reply_likes, rl.post_id ≠ pid ∧
      ¬ (postCommentIds s pid).contains rl.comment_id ∧
      ¬ (postReplyIds s pid).contains rl.reply_id) ∧
    (∀ n ∈ (deletePost s uid pid).1.notifications, n.post_id ≠ some pid ∧
      (∀ cid ∈ postCommentIds s pid, n.comment_id ≠ some cid) ∧
      (∀ rid ∈ postReplyIds s pid, n.reply_id ≠ some rid)) := by
  have hposts : (deletePost s uid pid).1.posts =
      deleteOne (fun p => p.id == pid) s.posts := by
    simp [deletePost, hfind]
  have hcomments : (deletePost s uid pid).1.comments =
      s.comments.filter (fun c => c.post_id != pid) := by
    simp [deletePost, hfind]
  have hreplies : (deletePost s uid pid).1.replies =
      s.replies.filter (fun r => ! (postCommentIds s pid).contains r.comment_id) := by
    simp [deletePost, hfind, postCommentIds]
  have hlikes : (deletePost s uid pid).1.likes =
      s.likes.filter (fun l => l.post_id != pid) := by
    simp [deletePost, hfind]
  have hclikes : (deletePost s uid pid).1.comment_likes =
      s.comment_likes.filter (fun cl => ! (postCommentIds s pid).contains cl.comment_id) := by
    simp [deletePost, hfind, postCommentIds]
  have hrlikes : (deletePost s uid pid).1.reply_likes =
      s.reply_likes.filter (fun rl => ! (postReplyIds s pid).contains rl.reply_id) := by
    simp [deletePost, hfind, postReplyIds, postCommentIds]
  have hnotifs : (deletePost s uid pid).1.notifications =
      s.notifications.filter (fun n => n.post_id != some pid) := by
    simp [deletePost, hfind]
  refine ⟨?_, ?_, ?_, ?_, ?_, ?_, ?_⟩
  · intro q hq
    rw [hposts] at hq
    have hfp : s.posts.find? (fun p => p.id == pid) ≠ none := by
      intro hnone
      have := countP_eq_zero_of_find?_eq_none _ _ hnone
      omega
    rcases Option.ne_none_iff_exists'.mp hfp with ⟨w, hw⟩
    have hcnt : (deleteOne (fun p => p.id == pid) s.posts).countP (fun p => p.id == pid) = 0 := by
      rw [countP_deleteOne_of_find? _ _ _ hw, hpostuniq]
    intro hqid
    have : ¬ ((fun p => p.id == pid) q = true) := List.countP_eq_zero.mp hcnt q hq
    simp [hqid] at this
  · intro c hc
    rw [hcomments] at hc
    have := (List.mem_filter.mp hc).2
    simpa using this
  · intro r hr
    rw [hreplies] at hr
    rcases List.mem_filter.mp hr with ⟨hmem, hpred⟩
    have hnc : ¬ (postCommentIds s pid).contains r.comment_id := by simpa using hpred
    refine ⟨?_, hnc⟩
    intro hpidr
    exact hnc (hreply r hmem hpidr)
  · intro l hl
    rw [hlikes] at hl
    have := (List.mem_filter.mp hl).2
    simpa using this
  · intro cl hcl
    rw [hclikes] at hcl
    rcases List.mem_filter.mp hcl with ⟨hmem, hpred⟩
    have hnc : ¬ (postCommentIds s pid).contains cl.comment_id := by simpa using hpred
    refine ⟨?_, hnc⟩
    intro hpidc
    exact hnc (hclike cl hmem hpidc)
  · intro rl hrl
    rw [hrlikes] at hrl
    rcases List.mem_filter.mp hrl with ⟨hmem, hpred⟩
    have hnr : ¬ (postReplyIds s pid).contains rl.reply_id := by simpa using hpred
    refine ⟨?_, ?_, hnr⟩
    · intro hpidr
      exact hnr (hrlike1 rl hmem hpidr)
    · intro hcc
      exact hnr (hrlike2 rl hmem hcc)
  · intro n hn
    rw [hnotifs] at hn
    rcases List.mem_filter.mp hn with ⟨hmem, hpred⟩
    have hnp : ¬ n.post_id = some pid := by simpa using hpred
    refine ⟨hnp, ?_, ?_⟩
    · intro cid hcid hceq
      exact hnp (hnotifc n hmem cid hcid hceq)
    · intro rid hrid hreq
      exact hnp (hnotifr n hmem rid hrid hreq)

/-- Witness for C2 on the concrete tree (spec §8 property 4): all consistency
hypotheses hold and, after the deletion, no comment of post 10 survives. -/
theorem delete_post_cascade_complete_witness :
    treeState.posts.find? (fun p => p.id == 10 && p.user_id == 1) = some treePost ∧
    treeState.posts.countP (fun p => p.id == 10) = 1 ∧
    (∀ c ∈ (deletePost treeState 1 10).1.comments, c.post_id ≠ 10) := by
  refine ⟨by decide, by decide, ?_⟩
  exact (delete_post_cascade_complete treeState 1 10 treePost (by decide) (by decide)
    (by decide) (by decide) (by decide) (by decide) (by decide) (by decide)).2.1

-- ---------------------------------------------------------------------------
-- Claim C5
-- ---------------------------------------------------------------------------

/-- C5: a successful delete_comment (by the comment author or the post owner)
on a comment with k replies removes the comment, all its replies, all likes on
the comment and on those replies, and all notifications referencing the
comment or any of those replies, and decrements the owning post's
comments_count by exactly 1 + k. -/
theorem delete_comment_cascade (s : DB) (uid cid : Nat) (c : Comment) (p : Post) (k : Nat)
    (hfind : check_comment_exists s cid = some c)
    (hpost : s.posts.find? (fun q => q.id == c.post_id) = some p)
    (hauth : c.user_id = uid ∨ p.user_id = uid)
    (huniq : s.comments.countP (fun x => x.id == cid) = 1)
    (hk : (s.replies.filter (fun r => r.comment_id == cid)).length = k) :
    (deleteComment s uid cid).2 = 200 ∧
    (∀ x ∈ (deleteComment s uid cid).1.comments, x.id ≠ cid) ∧
    (∀ r ∈ (deleteComment s uid cid).1.replies, r.comment_id ≠ cid) ∧
    (∀ cl ∈ (deleteComment s uid cid).1.comment_likes, cl.comment_id ≠ cid) ∧
    (∀ rl ∈ (deleteComment s uid cid).1.reply_likes,
      ¬ ((s.replies.filter (fun r => r.comment_id == cid)).map (fun r => r.id)).contains
        rl.reply_id) ∧
    (∀ n ∈ (deleteComment s uid cid).1.notifications, n.comment_id ≠ some cid ∧
      ¬ optIn n.reply_id ((s.replies.filter (fun r => r.comment_id == cid)).map
        (fun r => r.id))) ∧
    (deleteComment s uid cid).1.posts.find? (fun q => q.id == c.post_id) =
      some { p with comments_count := p.comments_count - (1 + (k : Int)) } := by
  have hnot : ¬ (c.user_id ≠ uid ∧ p.user_id ≠ uid) := by tauto
  have hstatus : (deleteComment s uid cid).2 = 200 := by
    simp [deleteComment, hfind, hpost, hnot]
  have hcomments : (deleteComment s uid cid).1.comments =
      deleteOne (fun x => x.id == cid) s.comments := by
    simp [deleteComment, hfind, hpost, hnot]
  have hreplies : (deleteComment s uid cid).1.replies =
      s.replies.filter (fun r => r.comment_id != cid) := by
    simp [deleteComment, hfind, hpost, hnot]
  have hclikes : (deleteComment s uid cid).1.comment_likes =
      s.comment_likes.filter (fun cl => cl.comment_id != cid) := by
    simp [deleteComment, hfind, hpost, hnot]
  have hrlikes : (deleteComment s uid cid).1.reply_likes =
      s.reply_likes.filter (fun rl =>
        ! ((s.replies.filter (fun r => r.comment_id == cid)).map (fun r => r.id)).contains
          rl.reply_id) := by
    simp [deleteComment, hfind, hpost, hnot]
  have hnotifs : (deleteComment s uid cid).1.notifications =
      (s.notifications.filter (fun n => n.comment_id != some cid)).filter (fun n =>
        ! optIn n.reply_id ((s.replies.filter (fun r => r.comment_id == cid)).map
          (fun r => r.id))) := by
    simp [deleteComment, hfind, hpost, hnot]
  have hposts : (deleteComment s uid cid).1.posts =
      updateOne (fun q => q.id == c.post_id)
        (fun q => { q with comments_count := q.comments_count -
          (1 + ((s.replies.filter (fun r => r.comment_id == cid)).length : Int)) })
        s.posts := by
    simp [deleteComment, hfind, hpost, hnot]
  refine ⟨hstatus, ?_, ?_, ?_, ?_, ?_, ?_⟩
  · intro x hx
    rw [hcomments] at hx
    have hfc : s.comments.find? (fun x => x.id == cid) = some c := hfind
    have hcnt : (deleteOne (fun x => x.id == cid) s.comments).countP
        (fun x => x.id == cid) = 0 := by
      rw [countP_deleteOne_of_find? _ _ _ hfc, huniq]
    intro hxid
    have := List.countP_eq_zero.mp hcnt x hx
    simp [hxid] at this
  · intro r hr
    rw [hreplies] at hr
    have := (List.mem_filter.mp hr).2
    simpa using this
  · intro cl hcl
    rw [hclikes] at hcl
    have := (List.mem_filter.mp hcl).2
    simpa using this
  · intro rl hrl
    rw [hrlikes] at hrl
    have := (List.mem_filter.mp hrl).2
    simpa using this
  · intro n hn
    rw [hnotifs] at hn
    rcases List.mem_filter.mp hn with ⟨hn1, hpred2⟩
    rcases List.mem_filter.mp hn1 with ⟨_, hpred1⟩
    constructor
    · simpa using hpred1
    · simpa using hpred2
  · rw [hposts, hk]
    exact find?_updateOne _ _ _ p (fun x hx => by simpa using hx) hpost

/-- Witness for C5: post owner 1 deletes comment 21 (k = 2 replies) of the
concrete tree. -/
theorem delete_comment_cascade_witness :
    check_comment_exists treeState 21 =
      some { id := 21, user_id := 2, post_id := 10, content := "c1",
             replies_count := 2, likes_count := 1, created_at := 0, updated_at := 0 } ∧
    (deleteComment treeState 1 21).1.posts.find? (fun q => q.id == 10) =
      some { treePost with comments_count := treePost.comments_count - (1 + (2 : Int)) } := by
  refine ⟨by decide, ?_⟩
  exact (delete_comment_cascade treeState 1 21
    { id := 21, user_id := 2, post_id := 10, content := "c1",
      replies_count := 2, likes_count := 1, created_at := 0, updated_at := 0 }
    treePost 2 (by decide) (by decide) (Or.inr (by decide)) (by decide)
    (by decide)).2.2.2.2.2.2

-- ---------------------------------------------------------------------------
-- Claim C8
-- ---------------------------------------------------------------------------

/-- State for C8: post 10 owns one FileRef whose blob 100 is in the store. -/
def c8State : DB where
  users := [1]
  posts := [{ id := 10, user_id := 1, title := "t", description := "d", tech_stack := [],
              github_link := "", files := [{ file_id := 100, filename := "a.txt" }],
              likes_count := 0, comments_count := 0, created_at := 0, updated_at := none }]
  comments := []
  replies := []
  likes := []
  comment_likes := []
  reply_likes := []
  notifications := []
  token_blacklist := []
  gridfs := [100]

/-- C8 counterexample: the owner edits post 10 submitting an empty
existing_files list, dropping FileRef 100 from the kept-file list.  The
FileRef disappears from the post, yet blob 100 is still in the blob store
after the edit — the claimed blob deletion does not happen on this path. -/
theorem edit_post_keeps_removed_blob :
    ((editPost c8State 1 10 "" "" "" [] (some []) [] 5).1.posts.find?
      (fun p => p.id == 10)).map Post.files = some [] ∧
    (editPost c8State 1 10 "" "" "" [] (some []) [] 5).1.gridfs = [100] := by
  decide

/-- C8 as amended: a PUT-edit that submits an existing_files list replaces the
post's files with the kept FileRefs (those whose file_id is listed) plus any
newly uploaded files, but it only ever adds blobs to the blob store (the new
uploads); the blobs of dropped FileRefs are not deleted — they are removed
from the blob store only by delete_post or delete_account. -/
theorem edit_post_files_update (s : DB) (uid pid : Nat) (post : Post) (keep : List Nat)
    (new_files : List FileRef) (now : Int)
    (hfind : s.posts.find? (fun p => p.id == pid && p.user_id == uid) = some post)
    (hfirst : s.posts.find? (fun p => p.id == pid) = some post) :
    (editPost s uid pid "" "" "" [] (some keep) new_files now).1.posts.find?
        (fun p => p.id == pid) =
      some { post with
        files := post.files.filter (fun f => keep.contains f.file_id) ++ new_files,
        updated_at := some now } ∧
    (editPost s uid pid "" "" "" [] (some keep) new_files now).1.gridfs =
      s.gridfs ++ new_files.map (fun f : FileRef => f.file_id) ∧
    (∀ b ∈ s.gridfs, b ∈ (editPost s uid pid "" "" "" [] (some keep) new_files now).1.gridfs) := by
  have h0 : pyStrip "" = "" := by decide
  have hposts : (editPost s uid pid "" "" "" [] (some keep) new_files now).1.posts =
      updateOne (fun p => p.id == pid)
        (fun p => { p with
          files := post.files.filter (fun f => keep.contains f.file_id) ++ new_files,
          updated_at := some now }) s.posts := by
    simp [editPost, hfind, h0]
  have hgrid : (editPost s uid pid "" "" "" [] (some keep) new_files now).1.gridfs =
      s.gridfs ++ new_files.map (fun f : FileRef => f.file_id) := by
    simp [editPost, hfind, h0]
  refine ⟨?_, hgrid, ?_⟩
  · rw [hposts]
    exact find?_updateOne _ _ _ post (fun x hx => by simpa using hx) hfirst
  · intro b hb
    rw [hgrid]
    exact List.mem_append_left _ hb

/-- Witness for the amended C8 on the concrete single-file post. -/
theorem edit_post_files_update_witness :
    c8State.posts.find? (fun p => p.id == 10 && p.user_id == 1) =
      some { id := 10, user_id := 1, title := "t", description := "d", tech_stack := [],
             github_link := "", files := [{ file_id := 100, filename := "a.txt" }],
             likes_count := 0, comments_count := 0, created_at := 0, updated_at := none } ∧
    (editPost c8State 1 10 "" "" "" [] (some []) [] 5).1.gridfs = c8State.gridfs ++ [] := by
  refine ⟨by decide, ?_⟩
  exact (edit_post_files_update c8State 1 10
    { id := 10, user_id := 1, title := "t", description := "d", tech_stack := [],
      github_link := "", files := [{ file_id := 100, filename := "a.txt" }],
      likes_count := 0, comments_count := 0, created_at := 0, updated_at := none }
    [] [] 5 (by decide) (by decide)).2.1

-- ---------------------------------------------------------------------------
-- Claim C6
-- ---------------------------------------------------------------------------

/-- C6: creating a reply under an existing comment increments that comment's
replies_count by exactly 1 and the owning post's comments_count by exactly 1
in the same operation, and deleting that same reply afterwards restores the
comments, posts and replies collections exactly (in particular both counters
are decremented by exactly 1, back to their original values). -/
theorem reply_counters_roundtrip (s : DB) (uid cid : Nat) (content : String)
    (newId notifId1 notifId2 : Nat) (now : Int) (c : Comment) (p : Post)
    (hcontent : ¬ pyStrip content = "")
    (hfind : check_comment_exists s cid = some c)
    (hpost : s.posts.find? (fun q => q.id == c.post_id) = some p)
    (hfresh : ∀ x ∈ s.replies, x.id ≠ newId) :
    (addReply s uid cid content newId notifId1 notifId2 now).1.comments.find?
        (fun x => x.id == cid) = some { c with replies_count := c.replies_count + 1 } ∧
    (addReply s uid cid content newId notifId1 notifId2 now).1.posts.find?
        (fun q => q.id == c.post_id) = some { p with comments_count := p.comments_count + 1 } ∧
    (deleteReply (addReply s uid cid content newId notifId1 notifId2 now).1
        uid newId).1.comments = s.comments ∧
    (deleteReply (addReply s uid cid content newId notifId1 notifId2 now).1
        uid newId).1.posts = s.posts ∧
    (deleteReply (addReply s uid cid content newId notifId1 notifId2 now).1
        uid newId).1.replies = s.replies := by
  have hAc : (addReply s uid cid content newId notifId1 notifId2 now).1.comments =
      updateOne (fun x => x.id == cid)
        (fun x => { x with replies_count := x.replies_count + 1 }) s.comments := by
    simp only [addReply]
    rw [if_neg hcontent, hfind]
    dsimp only
    split
    · split <;> simp [create_notification_comments]
    · simp [create_notification_comments]
  have hAp : (addReply s uid cid content newId notifId1 notifId2 now).1.posts =
      updateOne (fun q => q.id == c.post_id)
        (fun q => { q with comments_count := q.comments_count + 1 }) s.posts := by
    simp only [addReply]
    rw [if_neg hcontent, hfind]
    dsimp only
    split
    · split <;> simp [create_notification_posts]
    · simp [create_notification_posts]
  have hAr : (addReply s uid cid content newId notifId1 notifId2 now).1.replies =
      s.replies ++ [{ id := newId, user_id := uid, comment_id := cid,
                      post_id := c.post_id, content := pyStrip content, likes_count := 0,
                      created_at := now, updated_at := now }] := by
    simp only [addReply]
    rw [if_neg hcontent, hfind]
    dsimp only
    split
    · split <;> simp [create_notification_replies]
    · simp [create_notification_replies]
  have hfnone : s.replies.find? (fun x => x.id == newId) = none := by
    rw [List.find?_eq_none]
    intro x hx
    simpa using hfresh x hx
  have hrfind : check_reply_exists (addReply s uid cid content newId notifId1 notifId2 now).1
      newId = some { id := newId, user_id := uid, comment_id := cid,
                     post_id := c.post_id, content := pyStrip content, likes_count := 0,
                     created_at := now, updated_at := now } := by
    unfold check_reply_exists
    rw [hAr, find?_append_of_none _ _ _ hfnone]
    simp
  have hpfind : (addReply s uid cid content newId notifId1 notifId2 now).1.posts.find?
      (fun q => q.id == c.post_id) =
      some { p with comments_count := p.comments_count + 1 } := by
    rw [hAp]
    exact find?_updateOne _ _ _ p (fun x hx => by simpa using hx) hpost
  refine ⟨?_, hpfind, ?_, ?_, ?_⟩
  · rw [hAc]
    exact find?_updateOne _ _ _ c (fun x hx => by simpa using hx) hfind
  · have hDc : (deleteReply (addReply s uid cid content newId notifId1 notifId2 now).1
        uid newId).1.comments =
        updateOne (fun x => x.id == cid)
          (fun x => { x with replies_count := x.replies_count - 1 })
          (addReply s uid cid content newId notifId1 notifId2 now).1.comments := by
      simp [deleteReply, hrfind, hpfind]
    rw [hDc, hAc]
    exact updateOne_comp_eq_self _ _ _ _ (fun x hx => by simpa using hx)
      (fun x hx => by simp)
  · have hDp : (deleteReply (addReply s uid cid content newId notifId1 notifId2 now).1
        uid newId).1.posts =
        updateOne (fun q => q.id == c.post_id)
          (fun q => { q with comments_count := q.comments_count - 1 })
          (addReply s uid cid content newId notifId1 notifId2 now).1.posts := by
      simp [deleteReply, hrfind, hpfind]
    rw [hDp, hAp]
    exact updateOne_comp_eq_self _ _ _ _ (fun x hx => by simpa using hx)
      (fun x hx => by simp)
  · have hDr : (deleteReply (addReply s uid cid content newId notifId1 notifId2 now).1
        uid newId).1.replies =
        deleteOne (fun r => r.id == newId)
          (addReply s uid cid content newId notifId1 notifId2 now).1.replies := by
      simp [deleteReply, hrfind, hpfind]
    rw [hDr, hAr, deleteOne_append_of_none _ _ _ hfnone]
    simp [deleteOne]

-- ---------------------------------------------------------------------------
-- Claim C4
-- ---------------------------------------------------------------------------

/-- The unlike branch of the post-like toggle: an existing row is removed and
likes_count decremented. -/
theorem likePostToggle_unlike (s : DB) (uid pid nid : Nat) (now : Int) (x : PostLike)
    (hp : check_post_exists s pid = true)
    (hf : s.likes.find? (fun l => l.user_id == uid && l.post_id == pid) = some x) :
    (likePostToggle s uid pid nid now).1.likes =
      deleteOne (fun l => l.user_id == uid && l.post_id == pid) s.likes ∧
    (likePostToggle s uid pid nid now).1.posts =
      updateOne (fun p => p.id == pid)
        (fun p => { p with likes_count := p.likes_count - 1 }) s.posts := by
  constructor <;> simp [likePostToggle, hp, hf]

/-- The like branch of the post-like toggle: a row is appended and likes_count
incremented (the notification fan-out touches no other collection). -/
theorem likePostToggle_like (s : DB) (uid pid nid : Nat) (now : Int)
    (hp : check_post_exists s pid = true)
    (hf : s.likes.find? (fun l => l.user_id == uid && l.post_id == pid) = none) :
    (likePostToggle s uid pid nid now).1.likes =
      s.likes ++ [{ user_id := uid, post_id := pid, created_at := now }] ∧
    (likePostToggle s uid pid nid now).1.posts =
      updateOne (fun p => p.id == pid)
        (fun p => { p with likes_count := p.likes_count + 1 }) s.posts := by
  constructor <;>
    (simp only [likePostToggle]
     rw [if_neg (by simp [hp]), hf]
     dsimp only
     split <;> simp [create_notification_likes, create_notification_posts])

/-- The unlike branch of the comment-like toggle. -/
theorem commentLikeToggle_unlike (s : DB) (uid cid n1 n2 : Nat) (now : Int)
    (c : Comment) (x : CommentLike)
    (hc : check_comment_exists s cid = some c)
    (hf : s.comment_likes.find? (fun l => l.user_id == uid && l.comment_id == cid) = some x) :
    (commentLikeToggle s uid cid n1 n2 now).1.comment_likes =
      deleteOne (fun l => l.user_id == uid && l.comment_id == cid) s.comment_likes ∧
    (commentLikeToggle s uid cid n1 n2 now).1.comments =
      updateOne (fun y => y.id == cid)
        (fun y => { y with likes_count := y.likes_count - 1 }) s.comments := by
  constructor <;> simp [commentLikeToggle, hc, hf]

/-- The like branch of the comment-like toggle. -/
theorem commentLikeToggle_like (s : DB) (uid cid n1 n2 : Nat) (now : Int) (c : Comment)
    (hc : check_comment_exists s cid = some c)
    (hf : s.comment_likes.find? (fun l => l.user_id == uid && l.comment_id == cid) = none) :
    (commentLikeToggle s uid cid n1 n2 now).1.comment_likes =
      s.comment_likes ++ [{ user_id := uid, comment_id := cid,
                            post_id := c.post_id, created_at := now }] ∧
    (commentLikeToggle s uid cid n1 n2 now).1.comments =
      updateOne (fun y => y.id == cid)
        (fun y => { y with likes_count := y.likes_count + 1 }) s.comments := by
  constructor <;>
    (simp only [commentLikeToggle]
     rw [hc]
     dsimp only
     rw [hf]
     dsimp only
     split
     · split <;> simp [create_notification_comment_likes, create_notification_comments]
     · simp [create_notification_comment_likes, create_notification_comments])

/-- The unlike branch of the reply-like toggle. -/
theorem replyLikeToggle_unlike (s : DB) (uid rid n1 n2 : Nat) (now : Int)
    (r : Reply) (x : ReplyLike)
    (hr : check_reply_exists s rid = some r)
    (hf : s.reply_likes.find? (fun l => l.user_id == uid && l.reply_id == rid) = some x) :
    (replyLikeToggle s uid rid n1 n2 now).1.reply_likes =
      deleteOne (fun l => l.user_id == uid && l.reply_id == rid) s.reply_likes ∧
    (replyLikeToggle s uid rid n1 n2 now).1.replies =
      updateOne (fun y => y.id == rid)
        (fun y => { y with likes_count := y.likes_count - 1 }) s.replies := by
  constructor <;> simp [replyLikeToggle, hr, hf]

/-- The like branch of the reply-like toggle. -/
theorem replyLikeToggle_like (s : DB) (uid rid n1 n2 : Nat) (now : Int) (r : Reply)
    (hr : check_reply_exists s rid = some r)
    (hf : s.reply_likes.find? (fun l => l.user_id == uid && l.reply_id == rid) = none) :
    (replyLikeToggle s uid rid n1 n2 now).1.reply_likes =
      s.reply_likes ++ [{ user_id := uid, reply_id := rid, comment_id := r.comment_id,
                          post_id := r.post_id, created_at := now }] ∧
    (replyLikeToggle s uid rid n1 n2 now).1.replies =
      updateOne (fun y => y.id == rid)
        (fun y => { y with likes_count := y.likes_count + 1 }) s.replies := by
  constructor <;>
    (simp only [replyLikeToggle]
     rw [hr]
     dsimp only
     rw [hf]
     dsimp only
     split
     · split <;> simp [create_notification_reply_likes, create_notification_replies]
     · simp [create_notification_reply_likes, create_notification_replies])

/-- State for C4: user 2 already likes post 10 (owned by user 1). -/
def c4State : DB where
  users := [1, 2]
  posts := [{ id := 10, user_id := 1, title := "t", description := "d", tech_stack := [],
              github_link := "", files := [], likes_count := 1, comments_count := 0,
              created_at := 0, updated_at := none }]
  comments := []
  replies := []
  likes := [{ user_id := 2, post_id := 10, created_at := 0 }]
  comment_likes := []
  reply_likes := []
  notifications := []
  token_blacklist := []
  gridfs := []

/-- C4 counterexample: starting from a state that already holds a like row for
(user 2, post 10), performing the toggle twice leaves one like row for that
pair — not zero, as the claim states for every state. -/
theorem like_toggle_twice_counterexample :
    ¬ ((likePostToggle (likePostToggle c4State 2 10 50 1).1 2 10 51 2).1.likes.countP
        (fun l => l.user_id == 2 && l.post_id == 10) = 0) ∧
    (likePostToggle (likePostToggle c4State 2 10 50 1).1 2 10 51 2).1.likes.countP
        (fun l => l.user_id == 2 && l.post_id == 10) = 1 := by
  decide

/-- C4 as amended: each of the three like toggles (post, comment, reply)
preserves the at-most-one-like-row-per-(user, target) invariant, and toggling
twice in sequence on an existing target restores the pair's like-row count and
the target collection (hence the target's likes_count) exactly; when the pair
had no like row initially the double toggle leaves zero rows for the pair (the
like store itself is restored).  Starting from a state that already holds a
like row, however, the double toggle leaves that one row, not zero. -/
theorem like_toggle_pair_laws (s : DB) :
    (∀ uid pid notifId now, check_post_exists s pid = true →
      (∀ u t, s.likes.countP (fun l => l.user_id == u && l.post_id == t) ≤ 1) →
      (∀ u t, (likePostToggle s uid pid notifId now).1.likes.countP
        (fun l => l.user_id == u && l.post_id == t) ≤ 1)) ∧
    (∀ uid pid notifId1 notifId2 now1 now2, check_post_exists s pid = true →
      s.likes.countP (fun l => l.user_id == uid && l.post_id == pid) ≤ 1 →
      (likePostToggle (likePostToggle s uid pid notifId1 now1).1 uid pid
          notifId2 now2).1.posts = s.posts ∧
      (likePostToggle (likePostToggle s uid pid notifId1 now1).1 uid pid
          notifId2 now2).1.likes.countP (fun l => l.user_id == uid && l.post_id == pid) =
        s.likes.countP (fun l => l.user_id == uid && l.post_id == pid) ∧
      (s.likes.countP (fun l => l.user_id == uid && l.post_id == pid) = 0 →
        (likePostToggle (likePostToggle s uid pid notifId1 now1).1 uid pid
          notifId2 now2).1.likes = s.likes)) ∧
    (∀ uid cid notifId1 notifId2 now c, check_comment_exists s cid = some c →
      (∀ u t, s.comment_likes.countP (fun l => l.user_id == u && l.comment_id == t) ≤ 1) →
      (∀ u t, (commentLikeToggle s uid cid notifId1 notifId2 now).1.comment_likes.countP
        (fun l => l.user_id == u && l.comment_id == t) ≤ 1)) ∧
    (∀ uid cid n1 n2 n3 n4 now1 now2 c, check_comment_exists s cid = some c →
      s.comment_likes.countP (fun l => l.user_id == uid && l.comment_id == cid) ≤ 1 →
      (commentLikeToggle (commentLikeToggle s uid cid n1 n2 now1).1 uid cid
          n3 n4 now2).1.comments = s.comments ∧
      (commentLikeToggle (commentLikeToggle s uid cid n1 n2 now1).1 uid cid
          n3 n4 now2).1.comment_likes.countP
        (fun l => l.user_id == uid && l.comment_id == cid) =
        s.comment_likes.countP (fun l => l.user_id == uid && l.comment_id == cid) ∧
      (s.comment_likes.countP (fun l => l.user_id == uid && l.comment_id == cid) = 0 →
        (commentLikeToggle (commentLikeToggle s uid cid n1 n2 now1).1 uid cid
          n3 n4 now2).1.comment_likes = s.comment_likes)) ∧
    (∀ uid rid notifId1 notifId2 now r, check_reply_exists s rid = some r →
      (∀ u t, s.reply_likes.countP (fun l => l.user_id == u && l.reply_id == t) ≤ 1) →
      (∀ u t, (replyLikeToggle s uid rid notifId1 notifId2 now).1.reply_likes.countP
        (fun l => l.user_id == u && l.reply_id == t) ≤ 1)) ∧
    (∀ uid rid n1 n2 n3 n4 now1 now2 r, check_reply_exists s rid = some r →
      s.reply_likes.countP (fun l => l.user_id == uid && l.reply_id == rid) ≤ 1 →
      (replyLikeToggle (replyLikeToggle s uid rid n1 n2 now1).1 uid rid
          n3 n4 now2).1.replies = s.replies ∧
      (replyLikeToggle (replyLikeToggle s uid rid n1 n2 now1).1 uid rid
          n3 n4 now2).1.reply_likes.countP
        (fun l => l.user_id == uid && l.reply_id == rid) =
        s.reply_likes.countP (fun l => l.user_id == uid && l.reply_id == rid) ∧
      (s.reply_likes.countP (fun l => l.user_id == uid && l.reply_id == rid) = 0 →
        (replyLikeToggle (replyLikeToggle s uid rid n1 n2 now1).1 uid rid
          n3 n4 now2).1.reply_likes = s.reply_likes)) := by
  refine ⟨?_, ?_, ?_, ?_, ?_, ?_⟩
  · -- post toggle preserves the invariant
    intro uid pid notifId now hp hinv u t
    cases hf : s.likes.find? (fun l => l.user_id == uid && l.post_id == pid) with
    | some x =>
      rw [(likePostToggle_unlike s uid pid notifId now x hp hf).1]
      exact le_trans (countP_deleteOne_le _ _ _) (hinv u t)
    | none =>
      rw [(likePostToggle_like s uid pid notifId now hp hf).1, List.countP_append]
      by_cases hut : u = uid ∧ t = pid
      · rcases hut with ⟨rfl, rfl⟩
        have h0 : s.likes.countP (fun l => l.user_id == u && l.post_id == t) = 0 :=
          countP_eq_zero_of_find?_eq_none _ _ hf
        simp [h0, List.countP_cons]
      · have hnew : ((fun l => l.user_id == u && l.post_id == t)
            ({ user_id := uid, post_id := pid, created_at := now } : PostLike)) = false := by
          rcases not_and_or.mp hut with h | h <;> simp_all <;> omega
        rw [List.countP_cons]
        simp only [List.countP_nil, hnew]
        simpa using hinv u t
  · -- post toggle, toggled twice
    intro uid pid notifId1 notifId2 now1 now2 hp hcnt
    have hp2 : check_post_exists (likePostToggle s uid pid notifId1 now1).1 pid = true := by
      unfold check_post_exists at hp ⊢
      cases hf : s.likes.find? (fun l => l.user_id == uid && l.post_id == pid) with
      | some x =>
        rw [(likePostToggle_unlike s uid pid notifId1 now1 x hp hf).2, countP_updateOne]
        · exact hp
        · intro y; simp
      | none =>
        rw [(likePostToggle_like s uid pid notifId1 now1 hp hf).2, countP_updateOne]
        · exact hp
        · intro y; simp
    cases hf : s.likes.find? (fun l => l.user_id == uid && l.post_id == pid) with
    | none =>
      have h1 := likePostToggle_like s uid pid notifId1 now1 hp hf
      have hf2 : (likePostToggle s uid pid notifId1 now1).1.likes.find?
          (fun l => l.user_id == uid && l.post_id == pid) =
          some { user_id := uid, post_id := pid, created_at := now1 } := by
        rw [h1.1, find?_append_of_none _ _ _ hf]
        simp
      have h2 := likePostToggle_unlike (likePostToggle s uid pid notifId1 now1).1
        uid pid notifId2 now2 _ hp2 hf2
      have hlikes_final : (likePostToggle (likePostToggle s uid pid notifId1 now1).1 uid pid
          notifId2 now2).1.likes = s.likes := by
        rw [h2.1, h1.1, deleteOne_append_of_none _ _ _ hf]
        simp [deleteOne]
      refine ⟨?_, by rw [hlikes_final], fun _ => hlikes_final⟩
      rw [h2.2, h1.2]
      exact updateOne_comp_eq_self _ _ _ _ (fun y hy => by simpa using hy)
        (fun y hy => by simp)
    | some x =>
      have hone : s.likes.countP (fun l => l.user_id == uid && l.post_id == pid) = 1 :=
        le_antisymm hcnt (countP_pos_of_find? _ _ _ hf)
      have h1 := likePostToggle_unlike s uid pid notifId1 now1 x hp hf
      have hcnt1 : (likePostToggle s uid pid notifId1 now1).1.likes.countP
          (fun l => l.user_id == uid && l.post_id == pid) = 0 := by
        rw [h1.1, countP_deleteOne_of_find? _ _ _ hf, hone]
      have hf2 : (likePostToggle s uid pid notifId1 now1).1.likes.find?
          (fun l => l.user_id == uid && l.post_id == pid) = none :=
        find?_eq_none_of_countP_eq_zero _ _ hcnt1
      have h2 := likePostToggle_like (likePostToggle s uid pid notifId1 now1).1
        uid pid notifId2 now2 hp2 hf2
      refine ⟨?_, ?_, ?_⟩
      · rw [h2.2, h1.2]
        exact updateOne_comp_eq_self _ _ _ _ (fun y hy => by simpa using hy)
          (fun y hy => by simp)
      · rw [h2.1, List.countP_append, hcnt1, hone]
        simp [List.countP_cons]
      · intro h0
        rw [hone] at h0
        cases h0
  · -- comment toggle preserves the invariant
    intro uid cid notifId1 notifId2 now c hc hinv u t
    cases hf : s.comment_likes.find? (fun l => l.user_id == uid && l.comment_id == cid) with
    | some x =>
      rw [(commentLikeToggle_unlike s uid cid notifId1 notifId2 now c x hc hf).1]
      exact le_trans (countP_deleteOne_le _ _ _) (hinv u t)
    | none =>
      rw [(commentLikeToggle_like s uid cid notifId1 notifId2 now c hc hf).1,
        List.countP_append]
      by_cases hut : u = uid ∧ t = cid
      · rcases hut with ⟨rfl, rfl⟩
        have h0 : s.comment_likes.countP
            (fun l => l.user_id == u && l.comment_id == t) = 0 :=
          countP_eq_zero_of_find?_eq_none _ _ hf
        simp [h0, List.countP_cons]
      · have hnew : ((fun l => l.user_id == u && l.comment_id == t)
            ({ user_id := uid, comment_id := cid, post_id := c.post_id,
               created_at := now } : CommentLike)) = false := by
          rcases not_and_or.mp hut with h | h <;> simp_all <;> omega
        rw [List.countP_cons]
        simp only [List.countP_nil, hnew]
        simpa using hinv u t
  · -- comment toggle, toggled twice
    intro uid cid n1 n2 n3 n4 now1 now2 c hc hcnt
    cases hf : s.comment_likes.find? (fun l => l.user_id == uid && l.comment_id == cid) with
    | none =>
      have h1 := commentLikeToggle_like s uid cid n1 n2 now1 c hc hf
      have hc2 : check_comment_exists (commentLikeToggle s uid cid n1 n2 now1).1 cid =
          some { c with likes_count := c.likes_count + 1 } := by
        unfold check_comment_exists at hc ⊢
        rw [h1.2]
        exact find?_updateOne _ _ _ c (fun y hy => by simpa using hy) hc
      have hf2 : (commentLikeToggle s uid cid n1 n2 now1).1.comment_likes.find?
          (fun l => l.user_id == uid && l.comment_id == cid) =
          some { user_id := uid, comment_id := cid, post_id := c.post_id,
                 created_at := now1 } := by
        rw [h1.1, find?_append_of_none _ _ _ hf]
        simp
      have h2 := commentLikeToggle_unlike (commentLikeToggle s uid cid n1 n2 now1).1
        uid cid n3 n4 now2 _ _ hc2 hf2
      have hlk_final : (commentLikeToggle (commentLikeToggle s uid cid n1 n2 now1).1
          uid cid n3 n4 now2).1.comment_likes = s.comment_likes := by
        rw [h2.1, h1.1, deleteOne_append_of_none _ _ _ hf]
        simp [deleteOne]
      refine ⟨?_, by rw [hlk_final], fun _ => hlk_final⟩
      rw [h2.2, h1.2]
      exact updateOne_comp_eq_self _ _ _ _ (fun y hy => by simpa using hy)
        (fun y hy => by simp)
    | some x =>
      have hone : s.comment_likes.countP
          (fun l => l.user_id == uid && l.comment_id == cid) = 1 :=
        le_antisymm hcnt (countP_pos_of_find? _ _ _ hf)
      have h1 := commentLikeToggle_unlike s uid cid n1 n2 now1 c x hc hf
      have hcnt1 : (commentLikeToggle s uid cid n1 n2 now1).1.comment_likes.countP
          (fun l => l.user_id == uid && l.comment_id == cid) = 0 := by
        rw [h1.1, countP_deleteOne_of_find? _ _ _ hf, hone]
      have hf2 : (commentLikeToggle s uid cid n1 n2 now1).1.comment_likes.find?
          (fun l => l.user_id == uid && l.comment_id == cid) = none :=
        find?_eq_none_of_countP_eq_zero _ _ hcnt1
      have hc2 : check_comment_exists (commentLikeToggle s uid cid n1 n2 now1).1 cid =
          some { c with likes_count := c.likes_count - 1 } := by
        unfold check_comment_exists at hc ⊢
        rw [h1.2]
        exact find?_updateOne _ _ _ c (fun y hy => by simpa using hy) hc
      have h2 := commentLikeToggle_like (commentLikeToggle s uid cid n1 n2 now1).1
        uid cid n3 n4 now2 _ hc2 hf2
      refine ⟨?_, ?_, ?_⟩
      · rw [h2.2, h1.2]
        exact updateOne_comp_eq_self _ _ _ _ (fun y hy => by simpa using hy)
          (fun y hy => by simp)
      · rw [h2.1, List.countP_append, hcnt1, hone]
        simp [List.countP_cons]
      · intro h0
        rw [hone] at h0
        cases h0
  · -- reply toggle preserves the invariant
    intro uid rid notifId1 notifId2 now r hr hinv u t
    cases hf : s.reply_likes.find? (fun l => l.user_id == uid && l.reply_id == rid) with
    | some x =>
      rw [(replyLikeToggle_unlike s uid rid notifId1 notifId2 now r x hr hf).1]
      exact le_trans (countP_deleteOne_le _ _ _) (hinv u t)
    | none =>
      rw [(replyLikeToggle_like s uid rid notifId1 notifId2 now r hr hf).1,
        List.countP_append]
      by_cases hut : u = uid ∧ t = rid
      · rcases hut with ⟨rfl, rfl⟩
        have h0 : s.reply_likes.countP
            (fun l => l.user_id == u && l.reply_id == t) = 0 :=
          countP_eq_zero_of_find?_eq_none _ _ hf
        simp [h0, List.countP_cons]
      · have hnew : ((fun l => l.user_id == u && l.reply_id == t)
            ({ user_id := uid, reply_id := rid, comment_id := r.comment_id,
               post_id := r.post_id, created_at := now } : ReplyLike)) = false := by
          rcases not_and_or.mp hut with h | h <;> simp_all <;> omega
        rw [List.countP_cons]
        simp only [List.countP_nil, hnew]
        simpa using hinv u t
  · -- reply toggle, toggled twice
    intro uid rid n1 n2 n3 n4 now1 now2 r hr hcnt
    cases hf : s.reply_likes.find? (fun l => l.user_id == uid && l.reply_id == rid) with
    | none =>
      have h1 := replyLikeToggle_like s uid rid n1 n2 now1 r hr hf
      have hr2 : check_reply_exists (replyLikeToggle s uid rid n1 n2 now1).1 rid =
          some { r with likes_count := r.likes_count + 1 } := by
        unfold check_reply_exists at hr ⊢
        rw [h1.2]
        exact find?_updateOne _ _ _ r (fun y hy => by simpa using hy) hr
      have hf2 : (replyLikeToggle s uid rid n1 n2 now1).1.reply_likes.find?
          (fun l => l.user_id == uid && l.reply_id == rid) =
          some { user_id := uid, reply_id := rid, comment_id := r.comment_id,
                 post_id := r.post_id, created_at := now1 } := by
        rw [h1.1, find?_append_of_none _ _ _ hf]
        simp
      have h2 := replyLikeToggle_unlike (replyLikeToggle s uid rid n1 n2 now1).1
        uid rid n3 n4 now2 _ _ hr2 hf2
      have hlk_final : (replyLikeToggle (replyLikeToggle s uid rid n1 n2 now1).1
          uid rid n3 n4 now2).1.reply_likes = s.reply_likes := by
        rw [h2.1, h1.1, deleteOne_append_of_none _ _ _ hf]
        simp [deleteOne]
      refine ⟨?_, by rw [hlk_final], fun _ => hlk_final⟩
      rw [h2.2, h1.2]
      exact updateOne_comp_eq_self _ _ _ _ (fun y hy => by simpa using hy)
        (fun y hy => by simp)
    | some x =>
      have hone : s.reply_likes.countP
          (fun l => l.user_id == uid && l.reply_id == rid) = 1 :=
        le_antisymm hcnt (countP_pos_of_find? _ _ _ hf)
      have h1 := replyLikeToggle_unlike s uid rid n1 n2 now1 r x hr hf
      have hcnt1 : (replyLikeToggle s uid rid n1 n2 now1).1.reply_likes.countP
          (fun l => l.user_id == uid && l.reply_id == rid) = 0 := by
        rw [h1.1, countP_deleteOne_of_find? _ _ _ hf, hone]
      have hf2 : (replyLikeToggle s uid rid n1 n2 now1).1.reply_likes.find?
          (fun l => l.user_id == uid && l.reply_id == rid) = none :=
        find?_eq_none_of_countP_eq_zero _ _ hcnt1
      have hr2 : check_reply_exists (replyLikeToggle s uid rid n1 n2 now1).1 rid =
          some { r with likes_count := r.likes_count - 1 } := by
        unfold check_reply_exists at hr ⊢
        rw [h1.2]
        exact find?_updateOne _ _ _ r (fun y hy => by simpa using hy) hr
      have h2 := replyLikeToggle_like (replyLikeToggle s uid rid n1 n2 now1).1
        uid rid n3 n4 now2 _ hr2 hf2
      refine ⟨?_, ?_, ?_⟩
      · rw [h2.2, h1.2]
        exact updateOne_comp_eq_self _ _ _ _ (fun y hy => by simpa using hy)
          (fun y hy => by simp)
      · rw [h2.1, List.countP_append, hcnt1, hone]
        simp [List.countP_cons]
      · intro h0
        rw [hone] at h0
        cases h0

/-- Witness for the amended C4: user 2 double-toggles their like on post 10;
the posts collection (and so likes_count) is restored. -/
theorem like_toggle_pair_laws_witness :
    check_post_exists c4State 10 = true ∧
    c4State.likes.countP (fun l => l.user_id == 2 && l.post_id == 10) ≤ 1 ∧
    (likePostToggle (likePostToggle c4State 2 10 50 1).1 2 10 51 2).1.posts =
      c4State.posts := by
  refine ⟨by decide, by decide, ?_⟩
  exact ((like_toggle_pair_laws c4State).2.1 2 10 50 51 1 2 (by decide) (by decide)).1

/-- Witness for C6: user 1 replies (fresh id 40) to comment 21 of the tree and
then deletes the reply. -/
theorem reply_counters_roundtrip_witness :
    ¬ pyStrip "hello" = "" ∧
    (deleteReply (addReply treeState 1 21 "hello" 40 41 42 9).1 1 40).1.posts =
      treeState.posts := by
  refine ⟨by decide, ?_⟩
  exact (reply_counters_roundtrip treeState 1 21 "hello" 40 41 42 9
    { id := 21, user_id := 2, post_id := 10, content := "c1",
      replies_count := 2, likes_count := 1, created_at := 0, updated_at := 0 }
    treePost (by decide) (by decide) (by decide)
    (by decide)).2.2.2.1

end DevShare
